import Mathlib

/-!
# python-javabridge: the `CPython.exec` native bridge

A shallow embedding of `java/org_cellprofiler_javabridge_CPython.c`.

The C file calls two foreign libraries, the JNI (host A) and the CPython C API
(host B).  Their outcomes are not decided by the file, so every call that can
fail takes its outcome from an `Oracle`; everything the file itself decides
(the order of calls, the early returns, the reference releases, the messages) is
translated statement by statement.

* Pointers are `Option Nat`: `none` is `NULL`, `some p` is an object or a
  reference token.
* A C function becomes a computation in the monad `M`, which threads the
  `World` (what the C code can read back), appends the `Ev`ents it performs
  (what it does to the two hosts) and records whether the process has `ended`;
  once it has, no later statement runs.
* The two libraries behave as their manuals say.  A CPython call that fails
  returns `NULL` (or `-1`) with the error indicator set, and one that succeeds
  leaves the indicator alone; `PyErr_Print` prints the pending exception and
  clears the indicator, except that on a pending `SystemExit` it ends the
  process; `PyErr_Clear` needs an initialised interpreter and crashes the
  process without one; `PyDict_Merge` with `override = 0` adds only the keys
  the target lacks.  `FindClass` either finds the class or returns `NULL` with a
  `NoClassDefFoundError` pending in the JVM.
* Only `PyRun_String` runs the caller's code, so only its failure, reported from
  line 464, can be a `SystemExit`.
* An oracle answers by source line, and by `Pass` for the lines of
  `wrapJObject` and `mapToDictionary`, which one `exec` call may run twice; no
  other line runs twice in one call, so every behaviour of the hosts is covered.
* Dereferencing `NULL` has no defined behaviour in C.  The embedding records it
  as `Ev.nullDeref` and goes on with the next statement; the events that follow
  such an event describe no real execution.
* `JNI_OnLoad` and `get_property` (lines 29-89), which only locate and load the
  interpreter's shared library, are not embedded.
-/

namespace Javabridge

set_option linter.unusedVariables false

/-! ## Data model -/

/-- A Python mapping: names bound to object identities, first binding wins. -/
abbrev PyDict := List (String × Nat)

/-- A JNI reference: the handle held by the caller and the Java object it designates. -/
structure JRef where
  handle : Nat
  obj : Nat
deriving DecidableEq, Repr

/-- A `jobject` argument; `none` is the null reference. -/
abbrev jobject := Option JRef

/-- Which of the two namespace conversions of one `exec` call a marshalling step belongs to. -/
inductive Pass where
  | main
  | locals
  | globals
deriving DecidableEq, Repr

/-- The C functions of the file whose entry is recorded in the trace. -/
inductive Fn where
  | set_vm
  | attach_env
  | detach_env
  | wrapJObject (j : jobject)
  | mapToDictionary (map : jobject)
  | add_globals (pGlobals : Option Nat)
deriving DecidableEq, Repr

/-- What the code does to host A (the JVM) and host B (the interpreter). -/
inductive Ev where
  /-- control enters a C function of the file -/
  | enter (f : Fn)
  /-- The call `Py_Initialize()` -/
  | pyInitialize
  /-- The call `PyGILState_Ensure()` -/
  | gilEnsure
  /-- The call `PyGILState_Release(state)` -/
  | gilRelease
  /-- a CPython API call at this source line, and whether it succeeded -/
  | api (line : Nat) (ok : Bool)
  /-- The call `PyRun_String(pScript, Py_file_input, pGlobals, pLocals)` -/
  | run (script : String) (pGlobals pLocals : Option Nat) (ok : Bool)
  /-- The call `Py_INCREF(p)` -/
  | incref (p : Nat)
  /-- The call `Py_DECREF(p)` -/
  | decref (p : Nat)
  /-- a null pointer is dereferenced at this source line -/
  | nullDeref (line : Nat)
  /-- The call `FindClass(pEnv, "java/lang/Error")` and whether it found the class -/
  | findClass (ok : Bool)
  /-- a throwable of class `cls` with message `msg` is made pending in host A -/
  | throw (cls msg : String)
  /-- The call `PyErr_Print()` writes the text of the pending exception to stderr -/
  | errPrint (text : String)
  /-- The call `PyErr_Clear()` -/
  | errClear
  /-- The call `fprintf(stderr, msg)` -/
  | stderr (msg : String)
  /-- The call `GetStringUTFChars(pEnv, script, NULL)` -/
  | getChars
  /-- The call `ReleaseStringUTFChars(pEnv, script, NULL)` -/
  | releaseChars
deriving DecidableEq, Repr

/-- What the C code can read back: its own global `initialized`, and host B's interpreter state
(whether it is initialised, its error indicator, its objects, its top-level namespace). -/
structure World where
  /-- the C global `int initialized` -/
  initialized : Nat
  /-- what `Py_IsInitialized()` answers -/
  pyInit : Bool
  /-- the interpreter's error indicator: the text of the pending exception -/
  err : Option String
  /-- the next fresh object identity -/
  next : Nat
  /-- the contents of the dictionaries built so far, latest first -/
  dicts : List (Nat × PyDict)
  /-- the dictionary of the module `__main__` -/
  main : PyDict
deriving DecidableEq, Repr

/-- The outcomes the two hosts decide. -/
structure Oracle where
  /-- the expansion of `__FILE__` -/
  file : String
  /-- whether the file is compiled with `_WIN32` defined -/
  win32 : Bool
  /-- the CPython API call at this source line, in this pass: `none` when it succeeds, the text of
  the exception it raises when it fails -/
  py : Pass → Nat → Option String
  /-- whether `FindClass` finds `java/lang/Error` when this message is about to be thrown -/
  findClass : String → Bool
  /-- the bindings `javabridge.jutil.make_run_dictionary` produces for a Java map object -/
  mapItems : Nat → PyDict
  /-- what running a fragment does to the dictionaries and to `__main__` -/
  runEffect : String → Option Nat → Option Nat → List (Nat × PyDict) × PyDict →
    List (Nat × PyDict) × PyDict
  /-- whether the exception the fragment raises, when it raises one, is `SystemExit` -/
  systemExit : Bool

/-- The result of a computation: its value, the world it leaves, the events it performed, and
whether the process ended while it ran (an exit, or a crash).  When `ended` is set, `st` and `evs`
are those at the point where the process ended and `val` stands for no returned value. -/
structure Out (α : Type) where
  val : α
  st : World
  evs : List Ev
  ended : Bool

/-- A C function: from the world it starts in to its result. -/
def M (α : Type) : Type := World → Out α

instance : Monad M where
  pure a := fun w => ⟨a, w, [], false⟩
  bind x f := fun w =>
    let r := x w
    let r2 := f r.val r.st
    if r.ended then ⟨r2.val, r.st, r.evs, true⟩ else ⟨r2.val, r2.st, r.evs ++ r2.evs, r2.ended⟩

/-- Perform one event. -/
def emit (e : Ev) : M Unit := fun w => ⟨(), w, [e], false⟩

/-! ## The two hosts -/

/-- A CPython call that returns a new reference, or `NULL` with the error indicator set. -/
def newRef (o : Oracle) (p : Pass) (line : Nat) : M (Option Nat) := fun w =>
  match o.py p line with
  | none => ⟨some w.next, { w with next := w.next + 1 }, [Ev.api line true], false⟩
  | some e => ⟨none, { w with err := some e }, [Ev.api line false], false⟩

/-- A CPython call that returns a new dictionary with the given bindings, or `NULL` with the error
indicator set. -/
def newDict (o : Oracle) (p : Pass) (line : Nat) (items : PyDict) : M (Option Nat) := fun w =>
  match o.py p line with
  | none =>
    ⟨some w.next, { w with next := w.next + 1, dicts := (w.next, items) :: w.dicts },
      [Ev.api line true], false⟩
  | some e => ⟨none, { w with err := some e }, [Ev.api line false], false⟩

/-- The call `PyErr_Occurred()`: whether the error indicator is set. -/
def PyErr_Occurred : M Bool := fun w => ⟨w.err.isSome, w, [], false⟩

/-- The call `PyErr_Clear()`: clears the error indicator of the interpreter.  Where no interpreter
has been initialised there is no thread state to clear, and the call crashes the process. -/
def PyErr_Clear : M Unit := fun w =>
  if w.pyInit then ⟨(), { w with err := none }, [Ev.errClear], false⟩
  else ⟨(), w, [], true⟩

/-- The call `PyErr_Print()`: prints the pending exception to stderr and clears the error
indicator; with nothing pending it does nothing.  When the pending exception is `SystemExit`
(`exits`) it prints no traceback and ends the process instead of returning. -/
def PyErr_Print (exits : Bool) : M Unit := fun w =>
  match w.err with
  | none => ⟨(), w, [], false⟩
  | some e =>
    if exits then ⟨(), w, [], true⟩
    else ⟨(), { w with err := none }, [Ev.errPrint e], false⟩

/-- The call `Py_DECREF(p)`; `p` must not be `NULL`. -/
def Py_DECREF (line : Nat) (p : Option Nat) : M Unit :=
  match p with
  | none => emit (Ev.nullDeref line)
  | some q => emit (Ev.decref q)

/-- The call `Py_INCREF(p)`; `p` must not be `NULL`. -/
def Py_INCREF (line : Nat) (p : Option Nat) : M Unit :=
  match p with
  | none => emit (Ev.nullDeref line)
  | some q => emit (Ev.incref q)

/-- The call `Py_IsInitialized()`. -/
def Py_IsInitialized : M Bool := fun w => ⟨w.pyInit, w, [], false⟩

/-- The call `Py_Initialize()`: a fresh interpreter, with no exception pending. -/
def Py_Initialize : M Unit := fun w =>
  ⟨(), { w with pyInit := true, err := none }, [Ev.pyInitialize], false⟩

/-- The call `IsSameObject(pEnv, a, b)`: whether two references designate the same Java object. -/
def IsSameObject (a b : jobject) : Bool :=
  match a, b with
  | none, none => true
  | some x, some y => decide (x.obj = y.obj)
  | _, _ => false

/-- One step of `PyDict_Merge(a, b, override)`: the binding `kv` of `b` is added when `a` has no
binding for its key, and replaces the binding of `a` only when `override` is set. -/
def mergeStep (override : Bool) (acc : PyDict) (kv : String × Nat) : PyDict :=
  match acc.lookup kv.1 with
  | none => acc ++ [kv]
  | some _ => if override then kv :: acc else acc

/-- The call `PyDict_Merge(a, b, override)` on the contents: every binding of `b` is visited in
turn. -/
def dictMerge (a b : PyDict) (override : Bool) : PyDict :=
  b.foldl (mergeStep override) a

/-- The call `PyDict_Merge(pGlobals, pMainDict, 0)` at line 420: `0` on success, `-1` with the error
indicator set on failure. -/
def PyDict_Merge (o : Oracle) (pGlobals : Option Nat) : M Int := fun w =>
  match o.py Pass.main 420 with
  | some e => ⟨-1, { w with err := some e }, [Ev.api 420 false], false⟩
  | none =>
    match pGlobals with
    | none => ⟨0, w, [Ev.nullDeref 420], false⟩
    | some g =>
      ⟨0, { w with dicts := (g, dictMerge ((w.dicts.lookup g).getD []) w.main false) :: w.dicts },
        [Ev.api 420 true], false⟩

/-- The call `PyRun_String(pScript, Py_file_input, pGlobals, pLocals)` at line 458: runs the
fragment, which may rebind names in any dictionary; a new reference on success, `NULL` with the
error indicator set when the fragment raises. -/
def PyRun_String (o : Oracle) (pScript : String) (pGlobals pLocals : Option Nat) :
    M (Option Nat) := fun w =>
  let eff := o.runEffect pScript pGlobals pLocals (w.dicts, w.main)
  match o.py Pass.main 458 with
  | none =>
    ⟨some w.next, { w with next := w.next + 1, dicts := eff.1, main := eff.2 },
      [Ev.run pScript pGlobals pLocals true], false⟩
  | some e =>
    ⟨none, { w with err := some e, dicts := eff.1, main := eff.2 },
      [Ev.run pScript pGlobals pLocals false], false⟩

/-! ## The C functions -/

/-- The C function `set_vm` (lines 96-145). -/
def set_vm (o : Oracle) : M Int := do
  emit (Ev.enter Fn.set_vm)
  let pPyVM ← newRef o Pass.main 104                     -- PyCapsule_New((void *)pVM, NULL, NULL)
  if (← PyErr_Occurred) then
    emit (Ev.stderr "Unable to encapsulate VM for Python.\n")
    return -1
  let pJavabridge ← newRef o Pass.main 109               -- PyImport_ImportModule("javabridge")
  if (← PyErr_Occurred) then
    emit (Ev.stderr "Failed to import javabridge.\n")
    Py_DECREF 112 pPyVM
    return -1
  let pJVMEnter ← newRef o Pass.main 115                 -- PyObject_GetAttrString(.., "jvm_enter")
  if (← PyErr_Occurred) then
    emit (Ev.stderr "Failed to find function, javabridge.jvm_enter\n")
    Py_DECREF 118 pJavabridge
    Py_DECREF 119 pPyVM
    return -1
  let pArgs ← newRef o Pass.main 122                     -- PyTuple_Pack(1, pPyVM)
  if pArgs.isNone then
    emit (Ev.stderr "Failed to create the arguments for jvm_enter\n")
    Py_DECREF 125 pJVMEnter
    Py_DECREF 126 pJavabridge
    Py_DECREF 127 pPyVM
    return -1
  let pResult ← newRef o Pass.main 130                   -- PyObject_CallObject(pJVMEnter, pArgs)
  if pResult.isNone then
    emit (Ev.stderr "Caught exception in jvm_enter.\n")
    Py_DECREF 133 pArgs
    Py_DECREF 134 pJVMEnter
    Py_DECREF 135 pJavabridge
    Py_DECREF 136 pPyVM
    return -1
  Py_DECREF 139 pResult
  Py_DECREF 140 pArgs
  Py_DECREF 141 pJVMEnter
  Py_DECREF 142 pJavabridge
  Py_DECREF 143 pPyVM
  return 0

/-- Reads the C global `initialized`. -/
def getInitialized : M Nat := fun w => ⟨w.initialized, w, [], false⟩

/-- Assigns the C global `initialized`. -/
def setInitialized (n : Nat) : M Unit := fun w => ⟨(), { w with initialized := n }, [], false⟩

/-- The C function `check_init` (lines 155-164). -/
def check_init (o : Oracle) : M Unit := do
  if (← getInitialized) == 0 && !(← Py_IsInitialized) then
    Py_Initialize
    if o.win32 then
      emit (Ev.api 159 true)                             -- PyRun_SimpleString(pCleanPath)
    let _ ← set_vm o
    setInitialized 1

/-- The C function `throwError` (lines 175-185); the name is a keyword of Lean, hence the `J`. -/
def throwErrorJ (o : Oracle) (pEnv : Option Nat) (message : String) : M Unit :=
  match pEnv with
  | none => emit (Ev.nullDeref 179)                      -- (*pEnv)->FindClass
  | some _ =>
    if o.findClass message then do
      emit (Ev.findClass true)
      emit (Ev.throw "java/lang/Error" message)          -- ThrowNew(pEnv, exClass, message)
      PyErr_Clear
    else do
      -- FindClass returns NULL with a NoClassDefFoundError pending in host A
      emit (Ev.findClass false)
      emit (Ev.throw "java/lang/NoClassDefFoundError" "java/lang/Error")

/-- The text `snprintf(buffer, sizeof(buffer), "Python exception at %s:%d", __FILE__, linenumber)`
leaves in the 1000-byte `buffer`. -/
def wrappedMessage (file : String) (linenumber : Nat) : String :=
  String.mk (("Python exception at " ++ file ++ ":" ++ toString linenumber).toList.take 999)

/-- Whether the failure reported from source line `linenumber` is the fragment's.  Only
`PyRun_String` (line 458, reported from line 464) runs the caller's code; every other CPython call
of the file runs the interpreter itself or the bridge's support library, which raise no
`SystemExit`. -/
def fromFragment (linenumber : Nat) : Bool := linenumber == 464

/-- The C function `throwWrappedError` (lines 193-201). -/
def throwWrappedError (o : Oracle) (pEnv : Option Nat) (linenumber : Nat) : M Unit := do
  PyErr_Print (o.systemExit && fromFragment linenumber)
  throwErrorJ o pEnv (wrappedMessage o.file linenumber)

/-- The C function `attach_env` (lines 214-267). -/
def attach_env (o : Oracle) (pEnv : Option Nat) : M Int := do
  emit (Ev.enter Fn.attach_env)
  let pPyEnv ← newRef o Pass.main 226                    -- PyCapsule_New((void *)pEnv, NULL, NULL)
  if (← PyErr_Occurred) then
    throwWrappedError o pEnv 228
    return -1
  let pJavabridge ← newRef o Pass.main 231               -- PyImport_ImportModule("javabridge")
  if (← PyErr_Occurred) then
    throwWrappedError o pEnv 233
    Py_DECREF 234 pPyEnv
    return -1
  let pJNIEnter ← newRef o Pass.main 237                 -- PyObject_GetAttrString(.., "jni_enter")
  if (← PyErr_Occurred) then
    throwWrappedError o pEnv 239
    Py_DECREF 240 pJavabridge
    Py_DECREF 241 pPyEnv
    return -1
  let pArgs ← newRef o Pass.main 244                     -- PyTuple_Pack(1, pPyEnv)
  if pArgs.isNone then
    throwWrappedError o pEnv 246
    Py_DECREF 247 pJNIEnter
    Py_DECREF 248 pJavabridge
    Py_DECREF 249 pPyEnv
    return -1
  let pResult ← newRef o Pass.main 252                   -- PyObject_CallObject(pJNIEnter, pArgs)
  if pResult.isNone then
    throwWrappedError o pEnv 254
    Py_DECREF 255 pArgs
    Py_DECREF 256 pJNIEnter
    Py_DECREF 257 pJavabridge
    Py_DECREF 258 pPyEnv
    return -1
  Py_DECREF 261 pResult
  Py_DECREF 262 pArgs
  Py_DECREF 263 pJNIEnter
  Py_DECREF 264 pJavabridge
  Py_DECREF 265 pPyEnv
  return 0

/-- The C function `detach_env` (lines 274-310).  The branch for a failed `PyTuple_New(0)`
(lines 292-296) has no `return`, so control goes on to line 297. -/
def detach_env (o : Oracle) (pEnv : Option Nat) : M Int := do
  emit (Ev.enter Fn.detach_env)
  let pJavabridge ← newRef o Pass.main 280               -- PyImport_ImportModule("javabridge")
  if pJavabridge.isNone then
    throwWrappedError o pEnv 282
    return -1
  let pJNIExit ← newRef o Pass.main 285                  -- PyObject_GetAttrString(.., "jni_exit")
  if pJNIExit.isNone then
    throwWrappedError o pEnv 287
    Py_DECREF 288 pJavabridge
    return -1
  let pArgs ← newRef o Pass.main 291                     -- PyTuple_New(0)
  if pArgs.isNone then
    throwWrappedError o pEnv 293
    Py_DECREF 294 pJNIExit
    Py_DECREF 295 pJavabridge
  let pResult ← newRef o Pass.main 297                   -- PyObject_CallObject(pJNIExit, pArgs)
  if pResult.isNone then
    throwWrappedError o pEnv 299
    Py_DECREF 300 pArgs
    Py_DECREF 301 pJNIExit
    Py_DECREF 302 pJavabridge
    return -1
  Py_DECREF 305 pResult
  Py_DECREF 306 pArgs
  Py_DECREF 307 pJNIExit
  Py_DECREF 308 pJavabridge
  return 0

/-- The identity of the object `None`. -/
def Py_None : Nat := 0

/-- The C function `wrapJObject` (lines 312-357). -/
def wrapJObject (o : Oracle) (p : Pass) (pEnv : Option Nat) (j : jobject) : M (Option Nat) := do
  emit (Ev.enter (Fn.wrapJObject j))
  if j.isNone then
    Py_INCREF 320 (some Py_None)                         -- Py_RETURN_NONE
    return some Py_None
  let pJavabridge ← newRef o p 322                       -- PyImport_ImportModule("javabridge")
  if pJavabridge.isNone then
    throwWrappedError o pEnv 324
    return none
  let pGetEnv ← newRef o p 327                           -- PyObject_GetAttrString(.., "get_env")
  if pGetEnv.isNone then
    throwWrappedError o pEnv 329
    Py_DECREF 330 pJavabridge
    return none
  let pTheEnv ← newRef o p 333                           -- PyObject_CallObject(pGetEnv, NULL)
  if pTheEnv.isNone then
    throwWrappedError o pEnv 335
    Py_DECREF 336 pGetEnv
    Py_DECREF 337 pJavabridge
    return none
  let pCapsule ← newRef o p 340                          -- PyCapsule_New((void *)j, NULL, NULL)
  if pCapsule.isNone then
    throwWrappedError o pEnv 342
    Py_DECREF 343 pTheEnv
    Py_DECREF 344 pGetEnv
    Py_DECREF 345 pJavabridge
    return none
  let pResult ← newRef o p 348                           -- PyObject_CallMethod(pTheEnv, ..)
  if pResult.isNone then
    throwWrappedError o pEnv 350
  Py_DECREF 352 pCapsule
  Py_DECREF 353 pTheEnv
  Py_DECREF 354 pGetEnv
  Py_DECREF 355 pJavabridge
  return pResult

/-- The C function `mapToDictionary` (lines 359-405). -/
def mapToDictionary (o : Oracle) (p : Pass) (pEnv : Option Nat) (map : jobject) :
    M (Option Nat) := do
  emit (Ev.enter (Fn.mapToDictionary map))
  match map with
  | none =>
    let pResult ← newDict o p 367 []                     -- PyDict_New()
    if pResult.isNone then
      throwWrappedError o pEnv 369
    return pResult
  | some r =>
    let pMap ← wrapJObject o p pEnv (some r)
    if pMap.isNone then
      return none
    let pJavabridge ← newRef o p 377                     -- PyImport_ImportModule(".. jutil")
    if pJavabridge.isNone then
      throwWrappedError o pEnv 379
      Py_DECREF 380 pMap
      return none
    let pFn ← newRef o p 383                             -- PyObject_GetAttrString(.., ..)
    Py_DECREF 384 pJavabridge
    if pFn.isNone then
      throwWrappedError o pEnv 386
      Py_DECREF 387 pMap
      return none
    let pArgs ← newRef o p 390                           -- PyTuple_Pack(1, pMap)
    Py_DECREF 391 pMap
    if pArgs.isNone then
      throwWrappedError o pEnv 393
      Py_DECREF 394 pFn
      return none
    let pResult ← newDict o p 397 (o.mapItems r.obj)     -- PyObject_CallObject(pFn, pArgs)
    Py_DECREF 398 pFn
    Py_DECREF 399 pArgs
    if pResult.isNone then
      throwWrappedError o pEnv 401
      return none
    return pResult

/-- The C function `add_globals` (lines 410-425). -/
def add_globals (o : Oracle) (pEnv : Option Nat) (pGlobals : Option Nat) : M Int := do
  emit (Ev.enter (Fn.add_globals pGlobals))
  let pMain ← newRef o Pass.main 414                     -- PyImport_AddModule("__main__")
  if pMain.isNone then
    throwWrappedError o pEnv 416
    return -1
  emit (Ev.api 419 true)                                 -- PyModule_GetDict(pMain)
  let result ← PyDict_Merge o pGlobals                   -- PyDict_Merge(pGlobals, pMainDict, 0)
  if result != 0 then
    throwWrappedError o pEnv 422
  return result

/-- The C function `Java_org_cellprofiler_javabridge_CPython_exec` (lines 427-474). -/
def Java_org_cellprofiler_javabridge_CPython_exec (o : Oracle) (pEnv : Option Nat)
    (thiss : jobject) (script : Option String) (locals globals : jobject) : M Unit := do
  if pEnv.isNone then
    throwErrorJ o pEnv "JNIEnv was null."
    return
  match script with
  | none =>
    throwErrorJ o pEnv "Script was null."
    return
  | some text =>
    check_init o
    emit Ev.gilEnsure                                    -- state = PyGILState_Ensure()
    if (← attach_env o pEnv) == 0 then
      let pLocals ← mapToDictionary o Pass.locals pEnv locals
      if pLocals.isSome then
        let pGlobals ←
          if locals.isSome && IsSameObject locals globals then do
            Py_INCREF 451 pLocals
            pure pLocals
          else
            mapToDictionary o Pass.globals pEnv globals
        if pGlobals.isSome then
          if (← add_globals o pEnv pGlobals) == 0 then
            emit Ev.getChars                             -- pScript = GetStringUTFChars(..)
            let pResult ← PyRun_String o text pGlobals pLocals
            emit Ev.releaseChars
            if pResult.isSome then
              Py_DECREF 462 pResult
            else
              throwWrappedError o pEnv 464
          Py_DECREF 467 pGlobals
        Py_DECREF 469 pLocals
    let _ ← detach_env o pEnv
    emit Ev.gilRelease                                   -- PyGILState_Release(state)

/-- The native method under the name the specification gives it, `exec`. -/
abbrev exec := Java_org_cellprofiler_javabridge_CPython_exec

/-- Lines 446-470 of `exec`: the block guarded by `attach_env(pEnv) == 0`. -/
def execBody (o : Oracle) (pEnv : Option Nat) (text : String) (locals globals : jobject) :
    M Unit := do
  let pLocals ← mapToDictionary o Pass.locals pEnv locals
  if pLocals.isSome then
    let pGlobals ←
      if locals.isSome && IsSameObject locals globals then do
        Py_INCREF 451 pLocals
        pure pLocals
      else
        mapToDictionary o Pass.globals pEnv globals
    if pGlobals.isSome then
      if (← add_globals o pEnv pGlobals) == 0 then
        emit Ev.getChars
        let pResult ← PyRun_String o text pGlobals pLocals
        emit Ev.releaseChars
        if pResult.isSome then
          Py_DECREF 462 pResult
        else
          throwWrappedError o pEnv 464
      Py_DECREF 467 pGlobals
    Py_DECREF 469 pLocals

/-! ## Classes of events, postconditions, sample inputs -/

/-- Source lines of the CPython calls of `set_vm` and `check_init`. -/
def initLines : List Nat := [104, 109, 115, 122, 130, 159]

/-- Source lines of the CPython calls of `attach_env`. -/
def attachLines : List Nat := [226, 231, 237, 244, 252]

/-- Source lines of the CPython calls of `detach_env`. -/
def detachLines : List Nat := [280, 285, 291, 297]

/-- Source lines of the CPython calls of `wrapJObject` and `mapToDictionary`. -/
def marshalLines : List Nat := [322, 327, 333, 340, 348, 367, 377, 383, 390, 397]

/-- Source lines of the CPython calls of `add_globals`. -/
def mergeLines : List Nat := [414, 419, 420]

/-- A CPython call at one of the given source lines. -/
def Ev.apiIn (ls : List Nat) : Ev → Bool
  | Ev.api l _ => ls.contains l
  | _ => false

/-- Reporting a failure: printing the Python exception, finding the class, throwing, clearing. -/
def Ev.isReport : Ev → Bool
  | Ev.findClass _ => true
  | Ev.throw _ _ => true
  | Ev.errPrint _ => true
  | Ev.errClear => true
  | _ => false

/-- Releasing a reference, or writing a line to stderr. -/
def Ev.isRelease : Ev → Bool
  | Ev.decref _ => true
  | Ev.nullDeref _ => true
  | Ev.stderr _ => true
  | _ => false

/-- Reporting or releasing: what every C function of the file may do besides its own steps. -/
def Ev.isAux (e : Ev) : Bool := e.isReport || e.isRelease

/-- A fault reported to host A: a throwable made pending. -/
def Ev.isFault : Ev → Bool
  | Ev.throw _ _ => true
  | _ => false

/-- Acquiring or releasing the global execution lock. -/
def Ev.isLock : Ev → Bool
  | Ev.gilEnsure => true
  | Ev.gilRelease => true
  | _ => false

/-- A step of the lifecycle guard: initialising the interpreter, the handshake `set_vm`. -/
def Ev.isInit : Ev → Bool
  | Ev.pyInitialize => true
  | Ev.enter Fn.set_vm => true
  | Ev.api l _ => initLines.contains l
  | _ => false

/-- A step of attach. -/
def Ev.isAttach : Ev → Bool
  | Ev.enter Fn.attach_env => true
  | Ev.api l _ => attachLines.contains l
  | _ => false

/-- A step of detach. -/
def Ev.isDetach : Ev → Bool
  | Ev.enter Fn.detach_env => true
  | Ev.api l _ => detachLines.contains l
  | _ => false

/-- The conversion of a source map into a namespace begins. -/
def Ev.isConvert : Ev → Bool
  | Ev.enter (Fn.mapToDictionary _) => true
  | _ => false

/-- A step of marshalling. -/
def Ev.isMarshal : Ev → Bool
  | Ev.enter (Fn.wrapJObject _) => true
  | Ev.enter (Fn.mapToDictionary _) => true
  | Ev.api l _ => marshalLines.contains l
  | _ => false

/-- A step of the top-level merge. -/
def Ev.isMerge : Ev → Bool
  | Ev.enter (Fn.add_globals _) => true
  | Ev.api l _ => mergeLines.contains l
  | _ => false

/-- The execution of a fragment. -/
def Ev.isRun : Ev → Bool
  | Ev.run _ _ _ _ => true
  | _ => false

/-- The faults among a list of events. -/
def faults (evs : List Ev) : List Ev := evs.filter Ev.isFault

/-- What `check_init` may perform. -/
def initClass (e : Ev) : Bool := e.isInit || e.isRelease

/-- What `attach_env` may perform after it is entered. -/
def attachTail (e : Ev) : Bool := e.apiIn attachLines || e.isAux

/-- What `detach_env` may perform after it is entered. -/
def detachTail (e : Ev) : Bool := e.apiIn detachLines || e.isAux

/-- What `mapToDictionary` may perform, on a non-null map, after it is entered. -/
def marshalTail (e : Ev) : Bool := (e.isMarshal && !e.isConvert) || e.isAux

/-- What `add_globals` may perform. -/
def mergeClass (e : Ev) : Bool := e.isMerge || e.isAux

/-- What lines 446-470 of `exec` may perform. -/
def bodyClass (e : Ev) : Bool :=
  e.isMarshal || e.isMerge || e.isRun || e.isAux ||
    match e with
    | Ev.incref _ => true
    | Ev.getChars => true
    | Ev.releaseChars => true
    | _ => false

/-- Every event a computation performs, from any world, belongs to the class `C`. -/
def Emits {α : Type} (C : Ev → Bool) (x : M α) : Prop :=
  ∀ w, ∀ e ∈ (x w).evs, C e = true

/-- An incref event. -/
def Ev.isIncref : Ev → Bool
  | Ev.incref _ => true
  | _ => false

/-- The postcondition `Q` holds of the value, the world, the events and the `ended` flag `x`
produces from `w`. -/
def wp {α : Type} (x : M α) (Q : α → World → List Ev → Bool → Prop) (w : World) : Prop :=
  Q (x w).val (x w).st (x w).evs (x w).ended

/-- The computation never ends the process. -/
def Alive {α : Type} (x : M α) : Prop := ∀ w, (x w).ended = false

/-- What `exec` may perform once lines 446-470 are over: detach, and the release of the lock. -/
def exitClass (e : Ev) : Bool :=
  e == Ev.enter Fn.detach_env || detachTail e || e == Ev.gilRelease

/-- An oracle under which every call of either host succeeds. -/
def okOracle : Oracle where
  file := "org_cellprofiler_javabridge_CPython.c"
  win32 := false
  py := fun _ _ => none
  findClass := fun _ => true
  mapItems := fun _ => []
  runEffect := fun _ _ _ s => s
  systemExit := false

/-- A process in which the interpreter runs and the guard is set, with nothing pending. -/
def readyWorld : World := ⟨1, true, none, 1, [], []⟩

/-- A process in which nothing has been initialised yet. -/
def freshWorld : World := ⟨0, false, none, 1, [], []⟩

/-- The execution of the fragment `text`. -/
def Ev.runs (text : String) : Ev → Bool
  | Ev.run s _ _ _ => s == text
  | _ => false

/-- CPython.exec on an empty script, every call of either host succeeding. -/
def emptyScriptRun : Out Unit := exec okOracle (some 1) none (some "") none none readyWorld

/-- A sequence of `check_init` calls, one oracle for each call. -/
def check_init_calls : List Oracle → M Unit
  | [] => pure ()
  | o :: rest => do
    check_init o
    check_init_calls rest

/-- An oracle under which every call succeeds except the one CPython call at `line`, which raises
`text`. -/
def failAt (line : Nat) (text : String) : Oracle :=
  { okOracle with py := fun _ l => if l = line then some text else none }

/-- An oracle under which every call succeeds except the fragment, which raises `SystemExit`. -/
def exitOracle : Oracle := { failAt 458 "SystemExit" with systemExit := true }

/-- A process in which the dictionary `5` binds `x` and `__main__` binds `x` and `y`. -/
def mergeWorld : World := ⟨1, true, none, 6, [(5, [("x", 1)])], [("x", 2), ("y", 3)]⟩

/-! ## Running a computation -/

theorem bind_run {α β : Type} (x : M α) (f : α → M β) (w : World) :
    (x >>= f) w =
      if (x w).ended = true then ⟨(f (x w).val (x w).st).val, (x w).st, (x w).evs, true⟩
      else ⟨(f (x w).val (x w).st).val, (f (x w).val (x w).st).st,
        (x w).evs ++ (f (x w).val (x w).st).evs, (f (x w).val (x w).st).ended⟩ := rfl

@[simp] theorem bind_val {α β : Type} (x : M α) (f : α → M β) (w : World) :
    ((x >>= f) w).val = (f (x w).val (x w).st).val := by
  rw [bind_run]
  split <;> rfl

@[simp] theorem bind_evs {α β : Type} (x : M α) (f : α → M β) (w : World) :
    ((x >>= f) w).evs =
      (x w).evs ++ if (x w).ended = true then [] else (f (x w).val (x w).st).evs := by
  rw [bind_run]
  split <;> simp

@[simp] theorem bind_st {α β : Type} (x : M α) (f : α → M β) (w : World) :
    ((x >>= f) w).st = if (x w).ended = true then (x w).st else (f (x w).val (x w).st).st := by
  rw [bind_run]
  split <;> rfl

@[simp] theorem bind_ended {α β : Type} (x : M α) (f : α → M β) (w : World) :
    ((x >>= f) w).ended = ((x w).ended || (f (x w).val (x w).st).ended) := by
  rw [bind_run]
  cases h : (x w).ended <;> simp

theorem bind_evs_mem {α β : Type} (x : M α) (f : α → M β) (w : World) (e : Ev)
    (h : e ∈ ((x >>= f) w).evs) : e ∈ (x w).evs ∨ e ∈ (f (x w).val (x w).st).evs := by
  rw [bind_evs] at h
  rcases List.mem_append.1 h with h | h
  · exact Or.inl h
  · split at h
    · simp at h
    · exact Or.inr h

@[simp] theorem pure_run {α : Type} (a : α) (w : World) :
    (pure a : M α) w = ⟨a, w, [], false⟩ := rfl

@[simp] theorem emit_run (e : Ev) (w : World) : emit e w = ⟨(), w, [e], false⟩ := rfl

@[simp] theorem ite_run {α : Type} (c : Prop) [Decidable c] (x y : M α) (w : World) :
    (if c then x else y) w = if c then x w else y w := by
  split <;> rfl

theorem emit_bind_evs {β : Type} (e : Ev) (f : Unit → M β) (w : World) :
    ((emit e >>= f) w).evs = e :: (f () w).evs := rfl

theorem Emits.pure {α : Type} (C : Ev → Bool) (a : α) : Emits C (Pure.pure a : M α) := by
  intro w e he
  simp at he

theorem Emits.bind {α β : Type} {C : Ev → Bool} {x : M α} {f : α → M β}
    (hx : Emits C x) (hf : ∀ a, Emits C (f a)) : Emits C (x >>= f) := by
  intro w e he
  rcases bind_evs_mem x f w e he with he | he
  · exact hx w e he
  · exact hf _ _ e he

theorem Emits.ite {α : Type} {C : Ev → Bool} (c : Prop) [Decidable c] {x y : M α}
    (hx : Emits C x) (hy : Emits C y) : Emits C (if c then x else y) := by
  split
  · exact hx
  · exact hy

theorem Emits.mono {α : Type} {C D : Ev → Bool} {x : M α} (h : ∀ e, C e = true → D e = true)
    (hx : Emits C x) : Emits D x :=
  fun w e he => h e (hx w e he)

theorem Emits.emit {C : Ev → Bool} {e : Ev} (h : C e = true) : Emits C (emit e) := by
  intro w e' he
  simp at he
  subst he
  exact h

theorem Emits.newRef {C : Ev → Bool} {line : Nat} (h : ∀ b, C (Ev.api line b) = true)
    (o : Oracle) (p : Pass) : Emits C (newRef o p line) := by
  intro w e he
  unfold Javabridge.newRef at he
  split at he <;> simp at he <;> subst he <;> exact h _

theorem Emits.newDict {C : Ev → Bool} {line : Nat} (h : ∀ b, C (Ev.api line b) = true)
    (o : Oracle) (p : Pass) (items : PyDict) : Emits C (newDict o p line items) := by
  intro w e he
  unfold Javabridge.newDict at he
  split at he <;> simp at he <;> subst he <;> exact h _

theorem Emits.occurred (C : Ev → Bool) : Emits C PyErr_Occurred := by
  intro w e he
  simp [PyErr_Occurred] at he

theorem Emits.decref {C : Ev → Bool} (h : ∀ e, e.isRelease = true → C e = true)
    (line : Nat) (p : Option Nat) : Emits C (Py_DECREF line p) := by
  intro w e he
  cases p <;> simp [Py_DECREF] at he <;> subst he <;> exact h _ rfl

theorem Emits.clear {C : Ev → Bool} (h : ∀ e, e.isAux = true → C e = true) :
    Emits C PyErr_Clear := by
  intro w e he
  unfold PyErr_Clear at he
  split at he <;> simp at he
  subst he; exact h _ rfl

theorem Emits.print {C : Ev → Bool} (h : ∀ e, e.isAux = true → C e = true) (exits : Bool) :
    Emits C (PyErr_Print exits) := by
  intro w e he
  unfold PyErr_Print at he
  split at he
  · simp at he
  · split at he <;> simp at he
    subst he; exact h _ rfl

theorem Emits.throwErrorJ {C : Ev → Bool} (h : ∀ e, e.isAux = true → C e = true)
    (o : Oracle) (pEnv : Option Nat) (msg : String) : Emits C (throwErrorJ o pEnv msg) := by
  unfold Javabridge.throwErrorJ
  cases pEnv with
  | none => exact Emits.emit (h _ rfl)
  | some env =>
    simp only []
    repeat (first
      | exact Emits.clear h
      | exact Emits.emit (h _ rfl)
      | apply Emits.bind
      | apply Emits.ite
      | intro _)

theorem Emits.throwWrapped {C : Ev → Bool} (h : ∀ e, e.isAux = true → C e = true)
    (o : Oracle) (pEnv : Option Nat) (n : Nat) : Emits C (throwWrappedError o pEnv n) := by
  unfold throwWrappedError
  apply Emits.bind
  · exact Emits.print h _
  · intro _
    exact Emits.throwErrorJ h o pEnv _

theorem Emits.apply {α : Type} {C : Ev → Bool} {x : M α} (h : Emits C x) (w : World) :
    ∀ e ∈ (x w).evs, C e = true := h w

theorem Emits.stderr {C : Ev → Bool} (h : ∀ e, e.isRelease = true → C e = true)
    (msg : String) : Emits C (Javabridge.emit (Ev.stderr msg)) :=
  Emits.emit (h _ rfl)

theorem aux_of_release {C : Ev → Bool} (h : ∀ e, e.isAux = true → C e = true) :
    ∀ e : Ev, e.isRelease = true → C e = true := by
  intro e he
  exact h e (by simp [Ev.isAux, he])

theorem alive_pure {α : Type} (a : α) : Alive (Pure.pure a : M α) := fun _ => rfl

theorem alive_bind {α β : Type} {x : M α} {f : α → M β} (hx : Alive x) (hf : ∀ a, Alive (f a)) :
    Alive (x >>= f) := by
  intro w
  rw [bind_ended, hx w, hf _ _]
  rfl

theorem alive_ite {α : Type} (c : Prop) [Decidable c] {x y : M α} (hx : Alive x) (hy : Alive y) :
    Alive (if c then x else y) := by
  split
  · exact hx
  · exact hy

theorem alive_emit (e : Ev) : Alive (emit e) := fun _ => rfl

theorem alive_newRef (o : Oracle) (p : Pass) (line : Nat) : Alive (newRef o p line) := by
  intro w
  unfold Javabridge.newRef
  split <;> rfl

theorem alive_decref (line : Nat) (p : Option Nat) : Alive (Py_DECREF line p) := by
  intro w
  cases p <;> rfl

/-! ## What each C function performs -/

theorem set_vm_evs (o : Oracle) (w : World) :
    ∃ tail, (set_vm o w).evs = Ev.enter Fn.set_vm :: tail ∧
      ∀ e ∈ tail, (e.apiIn initLines || e.isRelease) = true := by
  have hR : ∀ e : Ev, e.isRelease = true → (e.apiIn initLines || e.isRelease) = true := by
    intro e he; simp [he]
  unfold set_vm
  rw [emit_bind_evs]
  refine ⟨_, rfl, Emits.apply ?_ _⟩
  repeat (first
    | exact Emits.pure _ _
    | exact Emits.occurred _
    | exact Emits.decref hR _ _
    | exact Emits.stderr hR _
    | exact Emits.newRef (fun _ => rfl) _ _
    | apply Emits.bind
    | apply Emits.ite
    | intro _)

theorem set_vm_emits (o : Oracle) : Emits initClass (set_vm o) := by
  intro w e he
  obtain ⟨tail, h1, h2⟩ := set_vm_evs o w
  rw [h1] at he
  rcases List.mem_cons.1 he with he | he
  · subst he; rfl
  · have := h2 e he
    cases e <;> simp_all [initClass, Ev.apiIn, Ev.isInit, Ev.isRelease]

theorem Emits.silent {α : Type} (C : Ev → Bool) {x : M α} (h : ∀ w, (x w).evs = []) :
    Emits C x := by
  intro w e he
  rw [h w] at he
  simp at he

theorem check_init_emits (o : Oracle) : Emits initClass (check_init o) := by
  unfold check_init
  repeat (first
    | exact Emits.pure _ _
    | exact Emits.silent _ (fun _ => rfl)
    | exact set_vm_emits o
    | exact Emits.emit rfl
    | apply Emits.bind
    | apply Emits.ite
    | intro _)

theorem attach_env_evs (o : Oracle) (pEnv : Option Nat) (w : World) :
    ∃ tail, (attach_env o pEnv w).evs = Ev.enter Fn.attach_env :: tail ∧
      ∀ e ∈ tail, attachTail e = true := by
  have hA : ∀ e : Ev, e.isAux = true → attachTail e = true := by
    intro e he; simp [attachTail, he]
  have hR := aux_of_release hA
  unfold attach_env
  rw [emit_bind_evs]
  refine ⟨_, rfl, Emits.apply ?_ _⟩
  repeat (first
    | exact Emits.pure _ _
    | exact Emits.occurred _
    | exact Emits.decref hR _ _
    | exact Emits.throwWrapped hA _ _ _
    | exact Emits.newRef (fun _ => rfl) _ _
    | apply Emits.bind
    | apply Emits.ite
    | intro _)

theorem detach_env_evs (o : Oracle) (pEnv : Option Nat) (w : World) :
    ∃ tail, (detach_env o pEnv w).evs = Ev.enter Fn.detach_env :: tail ∧
      ∀ e ∈ tail, detachTail e = true := by
  have hA : ∀ e : Ev, e.isAux = true → detachTail e = true := by
    intro e he; simp [detachTail, he]
  have hR := aux_of_release hA
  unfold detach_env
  rw [emit_bind_evs]
  refine ⟨_, rfl, Emits.apply ?_ _⟩
  repeat (first
    | exact Emits.pure _ _
    | exact Emits.decref hR _ _
    | exact Emits.throwWrapped hA _ _ _
    | exact Emits.newRef (fun _ => rfl) _ _
    | apply Emits.bind
    | apply Emits.ite
    | intro _)

theorem wrapJObject_emits (o : Oracle) (p : Pass) (pEnv : Option Nat) (r : JRef) :
    Emits marshalTail (wrapJObject o p pEnv (some r)) := by
  have hA : ∀ e : Ev, e.isAux = true → marshalTail e = true := by
    intro e he; simp [marshalTail, he]
  have hR := aux_of_release hA
  unfold wrapJObject
  simp only [Option.isNone_some, Bool.false_eq_true, if_false]
  repeat (first
    | exact Emits.pure _ _
    | exact Emits.decref hR _ _
    | exact Emits.throwWrapped hA _ _ _
    | exact Emits.newRef (fun _ => rfl) _ _
    | exact Emits.emit rfl
    | apply Emits.bind
    | apply Emits.ite
    | intro _)

theorem mapToDictionary_evs (o : Oracle) (p : Pass) (pEnv : Option Nat) (map : jobject)
    (w : World) :
    ∃ tail, (mapToDictionary o p pEnv map w).evs = Ev.enter (Fn.mapToDictionary map) :: tail ∧
      ∀ e ∈ tail, marshalTail e = true := by
  have hA : ∀ e : Ev, e.isAux = true → marshalTail e = true := by
    intro e he; simp [marshalTail, he]
  have hR := aux_of_release hA
  unfold mapToDictionary
  rw [emit_bind_evs]
  refine ⟨_, rfl, Emits.apply ?_ _⟩
  cases map with
  | none =>
    simp only []
    repeat (first
      | exact Emits.pure _ _
      | exact Emits.throwWrapped hA _ _ _
      | exact Emits.newDict (fun _ => rfl) _ _ _
      | apply Emits.bind
      | apply Emits.ite
      | intro _)
  | some r =>
    simp only []
    repeat (first
      | exact Emits.pure _ _
      | exact wrapJObject_emits _ _ _ _
      | exact Emits.decref hR _ _
      | exact Emits.throwWrapped hA _ _ _
      | exact Emits.newRef (fun _ => rfl) _ _
      | exact Emits.newDict (fun _ => rfl) _ _ _
      | apply Emits.bind
      | apply Emits.ite
      | intro _)

theorem Emits.merge {C : Ev → Bool} (h1 : ∀ b, C (Ev.api 420 b) = true)
    (h2 : C (Ev.nullDeref 420) = true) (o : Oracle) (g : Option Nat) :
    Emits C (PyDict_Merge o g) := by
  intro w e he
  unfold PyDict_Merge at he
  split at he
  · simp at he; subst he; exact h1 _
  · split at he <;> simp at he <;> subst he
    · exact h2
    · exact h1 _

theorem add_globals_emits (o : Oracle) (pEnv g : Option Nat) :
    Emits mergeClass (add_globals o pEnv g) := by
  have hA : ∀ e : Ev, e.isAux = true → mergeClass e = true := by
    intro e he; simp [mergeClass, he]
  unfold add_globals
  repeat (first
    | exact Emits.pure _ _
    | exact Emits.throwWrapped hA _ _ _
    | exact Emits.newRef (fun _ => rfl) _ _
    | exact Emits.merge (fun _ => rfl) rfl _ _
    | exact Emits.emit rfl
    | apply Emits.bind
    | apply Emits.ite
    | intro _)

theorem mapToDictionary_emits (o : Oracle) (p : Pass) (pEnv : Option Nat) (map : jobject) :
    Emits bodyClass (mapToDictionary o p pEnv map) := by
  intro w e he
  obtain ⟨tail, h1, h2⟩ := mapToDictionary_evs o p pEnv map w
  rw [h1] at he
  rcases List.mem_cons.1 he with he | he
  · subst he; rfl
  · have := h2 e he
    simp only [marshalTail, Bool.or_eq_true, Bool.and_eq_true] at this
    rcases this with this | this
    · simp [bodyClass, this.1]
    · simp [bodyClass, this]

theorem Emits.run {C : Ev → Bool} (h : ∀ s g l b, C (Ev.run s g l b) = true)
    (o : Oracle) (s : String) (g l : Option Nat) : Emits C (PyRun_String o s g l) := by
  intro w e he
  unfold PyRun_String at he
  simp only at he
  split at he <;> simp at he <;> subst he <;> exact h _ _ _ _

theorem Emits.incref {C : Ev → Bool} (h1 : ∀ q, C (Ev.incref q) = true)
    (h2 : ∀ n, C (Ev.nullDeref n) = true) (line : Nat) (p : Option Nat) :
    Emits C (Py_INCREF line p) := by
  intro w e he
  cases p <;> simp [Py_INCREF] at he <;> subst he
  · exact h2 _
  · exact h1 _

theorem execBody_emits (o : Oracle) (pEnv : Option Nat) (text : String)
    (locals globals : jobject) : Emits bodyClass (execBody o pEnv text locals globals) := by
  have hA : ∀ e : Ev, e.isAux = true → bodyClass e = true := by
    intro e he; simp [bodyClass, he]
  have hR := aux_of_release hA
  have hM : ∀ e : Ev, mergeClass e = true → bodyClass e = true := by
    intro e he
    simp only [mergeClass, Bool.or_eq_true] at he
    rcases he with he | he <;> simp [bodyClass, he]
  unfold execBody
  repeat (first
    | exact Emits.pure _ _
    | exact mapToDictionary_emits _ _ _ _
    | exact Emits.mono hM (add_globals_emits _ _ _)
    | exact Emits.decref hR _ _
    | exact Emits.incref (fun _ => rfl) (fun _ => rfl) _ _
    | exact Emits.throwWrapped hA _ _ _
    | exact Emits.run (fun _ _ _ _ => rfl) _ _ _ _
    | exact Emits.emit rfl
    | apply Emits.bind
    | apply Emits.ite
    | intro _)

theorem M.bind_assoc {α β : Type} (x : M α) (f : α → M β) (g : β → M Unit) :
    x >>= f >>= g = x >>= fun a => f a >>= g := by
  funext w
  simp only [bind_run]
  by_cases h1 : (x w).ended = true
  · simp [h1]
  · by_cases h2 : (f (x w).val (x w).st).ended = true <;> simp [h1, h2]

theorem M.pure_bind {α β : Type} (a : α) (f : α → M β) : Pure.pure a >>= f = f a := by
  funext w
  simp [bind_run, pure_run]

theorem M.ite_bind {α β : Type} (c : Prop) [Decidable c] (x y : M α) (f : α → M β) :
    (if c then x else y) >>= f = if c then x >>= f else y >>= f := by
  split <;> rfl

/-- On a non-null environment and a non-null script, `exec` is lines 443-473 with lines 446-470
folded into `execBody`. -/
theorem exec_eq (o : Oracle) (env : Nat) (thiss : jobject) (text : String)
    (locals globals : jobject) :
    exec o (some env) thiss (some text) locals globals =
      (do
        check_init o
        emit Ev.gilEnsure
        if (← attach_env o (some env)) == 0 then
          execBody o (some env) text locals globals
        let _ ← detach_env o (some env)
        emit Ev.gilRelease) := by
  simp only [exec, Java_org_cellprofiler_javabridge_CPython_exec, execBody, M.bind_assoc,
    M.pure_bind, M.ite_bind, Option.isNone_some, Bool.false_eq_true, if_false]

/-! ## The classes of events are disjoint -/

theorem initClass_kinds (e : Ev) (h : initClass e = true) :
    e.isLock = false ∧ e.isAttach = false ∧ e.isMarshal = false ∧ e.isMerge = false ∧
      e.isRun = false ∧ e.isDetach = false ∧ e.isFault = false ∧ e.isConvert = false ∧
      e.isIncref = false := by
  cases e <;> simp_all [initClass, Ev.isInit, Ev.isRelease, Ev.isLock, Ev.isAttach,
    Ev.isMarshal, Ev.isMerge, Ev.isRun, Ev.isDetach, Ev.isFault, Ev.isConvert, Ev.isIncref]
  case enter f => cases f <;> simp_all [Ev.isInit]
  case api l b =>
    simp only [initLines, attachLines, marshalLines, mergeLines, detachLines, List.mem_cons,
      List.mem_singleton, List.not_mem_nil, or_false] at h ⊢
    omega

theorem attachTail_kinds (e : Ev) (h : attachTail e = true) :
    e.isLock = false ∧ e.isInit = false ∧ e.isMarshal = false ∧ e.isMerge = false ∧
      e.isRun = false ∧ e.isDetach = false ∧ e.isConvert = false ∧ e.isIncref = false ∧
      e ≠ Ev.enter Fn.attach_env := by
  cases e <;> simp_all [attachTail, Ev.apiIn, Ev.isAux, Ev.isReport, Ev.isRelease, Ev.isLock,
    Ev.isInit, Ev.isMarshal, Ev.isMerge, Ev.isRun, Ev.isDetach, Ev.isConvert, Ev.isIncref]
  case api l b =>
    simp only [initLines, attachLines, marshalLines, mergeLines, detachLines, List.mem_cons,
      List.mem_singleton, List.not_mem_nil, or_false] at h ⊢
    omega

theorem detachTail_kinds (e : Ev) (h : detachTail e = true) :
    e.isLock = false ∧ e.isInit = false ∧ e.isMarshal = false ∧ e.isMerge = false ∧
      e.isRun = false ∧ e.isAttach = false ∧ e.isConvert = false ∧ e.isIncref = false ∧
      e ≠ Ev.enter Fn.detach_env := by
  cases e <;> simp_all [detachTail, Ev.apiIn, Ev.isAux, Ev.isReport, Ev.isRelease, Ev.isLock,
    Ev.isInit, Ev.isMarshal, Ev.isMerge, Ev.isRun, Ev.isAttach, Ev.isConvert, Ev.isIncref]
  case api l b =>
    simp only [initLines, attachLines, marshalLines, mergeLines, detachLines, List.mem_cons,
      List.mem_singleton, List.not_mem_nil, or_false] at h ⊢
    omega

theorem bodyClass_kinds (e : Ev) (h : bodyClass e = true) :
    e.isLock = false ∧ e.isInit = false ∧ e.isAttach = false ∧ e.isDetach = false := by
  cases e <;> simp_all [bodyClass, Ev.isAux, Ev.isReport, Ev.isRelease, Ev.isLock,
    Ev.isInit, Ev.isMarshal, Ev.isMerge, Ev.isRun, Ev.isAttach, Ev.isDetach]
  case enter f => cases f <;> simp_all [Ev.isMarshal, Ev.isMerge, Ev.isInit, Ev.isAttach, Ev.isDetach]
  case api l b =>
    simp only [initLines, attachLines, marshalLines, mergeLines, detachLines, List.mem_cons,
      List.mem_singleton, List.not_mem_nil, or_false] at h ⊢
    omega

theorem marshalTail_kinds (e : Ev) (h : marshalTail e = true) :
    e.isLock = false ∧ e.isMerge = false ∧ e.isRun = false ∧ e.isConvert = false ∧
      e.isIncref = false := by
  cases e <;> simp_all [marshalTail, Ev.isAux, Ev.isReport, Ev.isRelease, Ev.isLock,
    Ev.isMarshal, Ev.isMerge, Ev.isRun, Ev.isConvert, Ev.isIncref]
  case enter f => cases f <;> simp_all [Ev.isMarshal, Ev.isMerge, Ev.isConvert]
  case api l b =>
    simp only [initLines, attachLines, marshalLines, mergeLines, detachLines, List.mem_cons,
      List.mem_singleton, List.not_mem_nil, or_false] at h ⊢
    omega

theorem mergeClass_kinds (e : Ev) (h : mergeClass e = true) :
    e.isLock = false ∧ e.isMarshal = false ∧ e.isRun = false ∧ e.isConvert = false ∧
      e.isIncref = false := by
  cases e <;> simp_all [mergeClass, Ev.isAux, Ev.isReport, Ev.isRelease, Ev.isLock,
    Ev.isMarshal, Ev.isMerge, Ev.isRun, Ev.isConvert, Ev.isIncref]
  case enter f => cases f <;> simp_all [Ev.isMarshal, Ev.isMerge, Ev.isConvert]
  case api l b =>
    simp only [initLines, attachLines, marshalLines, mergeLines, detachLines, List.mem_cons,
      List.mem_singleton, List.not_mem_nil, or_false] at h ⊢
    omega

/-! ## Postconditions, and where the process can end -/

theorem set_vm_alive (o : Oracle) : Alive (set_vm o) := by
  unfold set_vm
  repeat (first
    | exact alive_pure _
    | exact alive_emit _
    | exact alive_decref _ _
    | exact alive_newRef _ _ _
    | exact (fun _ => rfl)
    | apply alive_bind
    | apply alive_ite
    | intro _)

theorem check_init_alive (o : Oracle) (w : World) : (check_init o w).ended = false := by
  have h : Alive (check_init o) := by
    unfold check_init
    repeat (first
      | exact alive_pure _
      | exact alive_emit _
      | exact set_vm_alive o
      | exact (fun _ => rfl)
      | apply alive_bind
      | apply alive_ite
      | intro _)
  exact h w

theorem faults_append (a b : List Ev) : faults (a ++ b) = faults a ++ faults b := by
  simp [faults]

theorem wp_pure {α : Type} (a : α) (Q : α → World → List Ev → Bool → Prop) (w : World) :
    wp (pure a) Q w ↔ Q a w [] false := Iff.rfl

theorem wp_bind {α β : Type} (x : M α) (f : α → M β) (Q : β → World → List Ev → Bool → Prop)
    (w : World) :
    wp (x >>= f) Q w ↔
      wp x (fun a s e1 d1 =>
        (d1 = true → Q (f a s).val s e1 true) ∧
        (d1 = false → wp (f a) (fun b s2 e2 d2 => Q b s2 (e1 ++ e2) d2) s)) w := by
  unfold wp
  rw [bind_run]
  cases h : (x w).ended <;> simp

theorem wp_ite {α : Type} (c : Prop) [Decidable c] (x y : M α)
    (Q : α → World → List Ev → Bool → Prop) (w : World) :
    wp (if c then x else y) Q w ↔ (c → wp x Q w) ∧ (¬ c → wp y Q w) := by
  by_cases h : c <;> simp [h]

theorem wp_emit (e : Ev) (Q : Unit → World → List Ev → Bool → Prop) (w : World) :
    wp (emit e) Q w ↔ Q () w [e] false := Iff.rfl

theorem wp_newRef (o : Oracle) (p : Pass) (line : Nat)
    (Q : Option Nat → World → List Ev → Bool → Prop) (w : World) :
    wp (newRef o p line) Q w ↔
      (o.py p line = none →
        Q (some w.next) { w with next := w.next + 1 } [Ev.api line true] false) ∧
      (∀ e, o.py p line = some e → Q none { w with err := some e } [Ev.api line false] false) := by
  unfold wp newRef
  cases h : o.py p line <;> simp

theorem wp_occurred (Q : Bool → World → List Ev → Bool → Prop) (w : World) :
    wp PyErr_Occurred Q w ↔ Q w.err.isSome w [] false := Iff.rfl

theorem wp_call {α : Type} (x : M α) (Q : α → World → List Ev → Bool → Prop) (w : World) :
    wp x Q w ↔ Q (x w).val (x w).st (x w).evs (x w).ended := Iff.rfl

@[simp] theorem Py_DECREF_ended (n : Nat) (p : Option Nat) (w : World) :
    (Py_DECREF n p w).ended = false := by
  cases p <;> rfl

@[simp] theorem Py_INCREF_ended (n : Nat) (p : Option Nat) (w : World) :
    (Py_INCREF n p w).ended = false := by
  cases p <;> rfl

@[simp] theorem Py_DECREF_st (n : Nat) (p : Option Nat) (w : World) : (Py_DECREF n p w).st = w := by
  cases p <;> rfl

@[simp] theorem Py_INCREF_st (n : Nat) (p : Option Nat) (w : World) : (Py_INCREF n p w).st = w := by
  cases p <;> rfl

theorem wp_bind_pure {α β : Type} (a : α) (f : α → M β) (Q : β → World → List Ev → Bool → Prop)
    (w : World) : wp (pure a >>= f) Q w ↔ wp (f a) Q w := Iff.rfl

theorem wp_bind_emit {β : Type} (e : Ev) (f : Unit → M β) (Q : β → World → List Ev → Bool → Prop)
    (w : World) :
    wp (emit e >>= f) Q w ↔ wp (f ()) (fun b s2 e2 d2 => Q b s2 (e :: e2) d2) w := Iff.rfl

theorem wp_bind_occurred {β : Type} (f : Bool → M β) (Q : β → World → List Ev → Bool → Prop)
    (w : World) : wp (PyErr_Occurred >>= f) Q w ↔ wp (f w.err.isSome) Q w := Iff.rfl

theorem wp_bind_newRef {β : Type} (o : Oracle) (p : Pass) (line : Nat) (f : Option Nat → M β)
    (Q : β → World → List Ev → Bool → Prop) (w : World) :
    wp (newRef o p line >>= f) Q w ↔
      (o.py p line = none →
        wp (f (some w.next)) (fun b s2 e2 d2 => Q b s2 (Ev.api line true :: e2) d2)
          { w with next := w.next + 1 }) ∧
      (∀ e, o.py p line = some e →
        wp (f none) (fun b s2 e2 d2 => Q b s2 (Ev.api line false :: e2) d2)
          { w with err := some e }) := by
  rw [wp_bind, wp_newRef]
  simp

theorem wp_bind_decref {β : Type} (n : Nat) (p : Option Nat) (f : Unit → M β)
    (Q : β → World → List Ev → Bool → Prop) (w : World) :
    wp (Py_DECREF n p >>= f) Q w ↔
      wp (f ()) (fun b s2 e2 d2 => Q b s2 ((Py_DECREF n p w).evs ++ e2) d2) w := by
  cases p <;> exact Iff.rfl

theorem wp_bind_incref {β : Type} (n : Nat) (p : Option Nat) (f : Unit → M β)
    (Q : β → World → List Ev → Bool → Prop) (w : World) :
    wp (Py_INCREF n p >>= f) Q w ↔
      wp (f ()) (fun b s2 e2 d2 => Q b s2 ((Py_INCREF n p w).evs ++ e2) d2) w := by
  cases p <;> exact Iff.rfl

/-- When `attach_env` returns `0` the process has not ended in it. -/
theorem attach_env_alive (o : Oracle) (pEnv : Option Nat) (w : World)
    (h : (attach_env o pEnv w).val = 0) : (attach_env o pEnv w).ended = false := by
  revert h
  show wp (attach_env o pEnv) (fun v _ _ d => v = 0 → d = false) w
  unfold attach_env
  simp only [↓wp_bind_pure, ↓wp_bind_emit, ↓wp_bind_occurred, ↓wp_bind_newRef, ↓wp_bind_decref,
    wp_bind, wp_pure, wp_ite]
  simp only [wp_call, bind_val, pure_run, Py_DECREF_ended]
  simp

theorem throwWrappedError_faults (o : Oracle) (env n : Nat) (w : World)
    (hn : fromFragment n = false) :
    (faults (throwWrappedError o (some env) n w).evs).length = 1 := by
  unfold throwWrappedError throwErrorJ PyErr_Print PyErr_Clear
  cases h : w.err <;> cases h2 : o.findClass (wrappedMessage o.file n) <;>
    cases h3 : w.pyInit <;> simp [h, h2, h3, hn, faults, Ev.isFault]

theorem decref_faults (line : Nat) (p : Option Nat) (w : World) :
    faults (Py_DECREF line p w).evs = [] := by
  cases p <;> simp [Py_DECREF, faults, Ev.isFault]

theorem faults_cons_api (l : Nat) (b : Bool) (t : List Ev) : faults (Ev.api l b :: t) = faults t :=
  rfl

theorem faults_cons_enter (f : Fn) (t : List Ev) : faults (Ev.enter f :: t) = faults t := rfl

/-- When a step of attach fails, `attach_env` returns a non-zero value and has reported one
fault. -/
theorem attach_env_fails (o : Oracle) (env : Nat) (w : World)
    (h : ∃ l ∈ attachLines, (o.py Pass.main l).isSome = true) :
    (attach_env o (some env) w).val ≠ 0 ∧
      (faults (attach_env o (some env) w).evs).length = 1 := by
  simp only [attachLines, List.mem_cons, List.mem_singleton, List.not_mem_nil, or_false,
    exists_eq_or_imp, exists_eq_left] at h
  show wp (attach_env o (some env)) (fun v _ evs _ => v ≠ 0 ∧ (faults evs).length = 1) w
  unfold attach_env
  simp only [↓wp_bind_pure, ↓wp_bind_emit, ↓wp_bind_occurred, ↓wp_bind_newRef, ↓wp_bind_decref,
    wp_bind, wp_pure, wp_ite]
  simp only [wp_call, faults_append, faults_cons_api, faults_cons_enter, decref_faults, bind_val,
    pure_run, Py_DECREF_ended, List.append_nil,
    throwWrappedError_faults _ _ 228 _ rfl, throwWrappedError_faults _ _ 233 _ rfl,
    throwWrappedError_faults _ _ 239 _ rfl, throwWrappedError_faults _ _ 246 _ rfl,
    throwWrappedError_faults _ _ 254 _ rfl, Option.isNone_some, Option.isNone_none,
    Option.isSome_some, Bool.false_eq_true, false_implies, true_and, and_true, implies_true,
    not_false_eq_true, not_true_eq_false, true_implies, ne_eq, reduceCtorEq]
  intro h1 _ h2 _ h3 _ h4 h5
  simp [h1, h2, h3, h4, h5] at h

/-! ## The shape of an `exec` call -/

theorem exitClass_kinds (e : Ev) (h : exitClass e = true) :
    e.isInit = false ∧ e.isMarshal = false ∧ e.isMerge = false ∧ e.isRun = false ∧
      e.isAttach = false ∧ e.isConvert = false ∧ e.isIncref = false ∧ e ≠ Ev.gilEnsure ∧
      e ≠ Ev.enter Fn.attach_env ∧ e ≠ Ev.api 420 true := by
  simp only [exitClass, Bool.or_eq_true, beq_iff_eq] at h
  rcases h with (h | h) | h
  · subst h
    simp [Ev.isInit, Ev.isMarshal, Ev.isMerge, Ev.isRun, Ev.isAttach, Ev.isConvert, Ev.isIncref]
  · obtain ⟨-, k2, k3, k4, k5, k6, k7, k8, -⟩ := detachTail_kinds e h
    refine ⟨k2, k3, k4, k5, k6, k7, k8, ?_, ?_, ?_⟩
    · intro hc; subst hc; simp [detachTail, Ev.apiIn, Ev.isAux, Ev.isReport, Ev.isRelease] at h
    · intro hc; subst hc; simp [Ev.isAttach] at k6
    · intro hc; subst hc; simp [Ev.isMerge, mergeLines] at k4
  · subst h
    simp [Ev.isInit, Ev.isMarshal, Ev.isMerge, Ev.isRun, Ev.isAttach, Ev.isConvert, Ev.isIncref]

/-- What follows lines 446-470 in `exec`: detach, then the release of the lock. -/
theorem exit_emits (o : Oracle) (pEnv : Option Nat) :
    Emits exitClass (detach_env o pEnv >>= fun _ => emit Ev.gilRelease) := by
  apply Emits.bind
  · intro w e he
    obtain ⟨tail, k1, k2⟩ := detach_env_evs o pEnv w
    rw [k1] at he
    rcases List.mem_cons.1 he with he | he
    · subst he; rfl
    · simp [exitClass, k2 e he]
  · intro _
    exact Emits.emit rfl

/-- The events of `exec` on a non-null environment and script: the lifecycle guard, the lock, attach,
then, unless the process has ended, lines 446-470 when attach returned `0`, detach and the release
of the lock. -/
theorem exec_evs (o : Oracle) (env : Nat) (thiss : jobject) (text : String)
    (locals globals : jobject) (w : World) :
    ∃ rest,
      (exec o (some env) thiss (some text) locals globals w).evs =
        (check_init o w).evs ++ Ev.gilEnsure ::
          ((attach_env o (some env) (check_init o w).st).evs ++ rest) ∧
      ((attach_env o (some env) (check_init o w).st).val ≠ 0 →
        ∀ e ∈ rest, exitClass e = true) ∧
      ((attach_env o (some env) (check_init o w).st).val = 0 →
        ∃ post, rest = (execBody o (some env) text locals globals
            (attach_env o (some env) (check_init o w).st).st).evs ++ post ∧
          ∀ e ∈ post, exitClass e = true) := by
  have hX := exit_emits o (some env)
  rw [exec_eq]
  simp only [bind_evs, check_init_alive, emit_run, Bool.false_eq_true, if_false,
    List.singleton_append, bind_st, bind_val]
  refine ⟨_, rfl, ?_, ?_⟩
  · intro hv e he
    have hv' : ((attach_env o (some env) (check_init o w).st).val == 0) = false := by
      simpa using hv
    split at he
    · simp at he
    · simp only [hv', Bool.false_eq_true, if_false, pure_run, List.nil_append] at he
      exact hX _ e (by simpa using he)
  · intro hv
    rw [if_neg (by simp [attach_env_alive o _ _ hv])]
    simp only [hv, beq_self_eq_true, if_true, bind_evs]
    refine ⟨_, rfl, ?_⟩
    intro e he
    split at he
    · simp at he
    · exact hX _ e (by simpa using he)

/-- C6. In every `exec` call in which a step of attach fails (creating the capsule at line 226,
importing the bridge module at 231, looking up `jni_enter` at 237, packing the argument at 244 or
calling `jni_enter` at 252), `attach_env` returns a non-zero value having reported one fault to
host A, and `exec` performs no step of marshalling, of the top-level merge or of fragment
execution. -/
theorem exec_attach_failure_skips_work (o : Oracle) (env : Nat) (thiss : jobject) (text : String)
    (locals globals : jobject) (w : World)
    (hfail : ∃ l ∈ attachLines, (o.py Pass.main l).isSome = true) :
    (attach_env o (some env) (check_init o w).st).val ≠ 0 ∧
      (faults (attach_env o (some env) (check_init o w).st).evs).length = 1 ∧
      ∀ e ∈ (exec o (some env) thiss (some text) locals globals w).evs,
        e.isMarshal = false ∧ e.isMerge = false ∧ e.isRun = false := by
  obtain ⟨hv, hf⟩ := attach_env_fails o env (check_init o w).st hfail
  refine ⟨hv, hf, ?_⟩
  obtain ⟨rest, h, hr, -⟩ := exec_evs o env thiss text locals globals w
  obtain ⟨ta, ha1, ha2⟩ := attach_env_evs o (some env) (check_init o w).st
  rw [ha1] at h
  intro e he
  rw [h] at he
  simp only [List.mem_append, List.mem_cons] at he
  rcases he with he | he | (he | he) | he
  · obtain ⟨-, -, k3, k4, k5, -⟩ := initClass_kinds e (check_init_emits o w e he)
    exact ⟨k3, k4, k5⟩
  · subst he; simp [Ev.isMarshal, Ev.isMerge, Ev.isRun]
  · subst he; simp [Ev.isMarshal, Ev.isMerge, Ev.isRun]
  · obtain ⟨-, -, k3, k4, k5, -⟩ := attachTail_kinds e (ha2 e he)
    exact ⟨k3, k4, k5⟩
  · obtain ⟨-, k2, k3, k4, -⟩ := exitClass_kinds e (hr hv e he)
    exact ⟨k2, k3, k4⟩

/-! ## The argument checks, the merge and the fragment -/

theorem Emits.not_mem {α : Type} {C : Ev → Bool} {x : M α} (h : Emits C x) (w : World) (e : Ev)
    (he : C e = false) : e ∉ (x w).evs := by
  intro hm
  rw [h w e hm] at he
  exact Bool.noConfusion he

theorem wp_merge (o : Oracle) (g : Option Nat) (Q : Int → World → List Ev → Bool → Prop)
    (w : World) :
    wp (PyDict_Merge o g) Q w ↔
      (∀ e, o.py Pass.main 420 = some e →
        Q (-1) { w with err := some e } [Ev.api 420 false] false) ∧
      (o.py Pass.main 420 = none →
        (g = none → Q 0 w [Ev.nullDeref 420] false) ∧
        (∀ q, g = some q →
          Q 0 { w with dicts := (q, dictMerge ((w.dicts.lookup q).getD []) w.main false) :: w.dicts }
            [Ev.api 420 true] false)) := by
  unfold wp PyDict_Merge
  cases h : o.py Pass.main 420 <;> cases g <;> simp

theorem wp_bind_merge {β : Type} (o : Oracle) (g : Option Nat) (f : Int → M β)
    (Q : β → World → List Ev → Bool → Prop) (w : World) :
    wp (PyDict_Merge o g >>= f) Q w ↔
      (∀ e, o.py Pass.main 420 = some e →
        wp (f (-1)) (fun b s2 e2 d2 => Q b s2 (Ev.api 420 false :: e2) d2)
          { w with err := some e }) ∧
      (o.py Pass.main 420 = none →
        (g = none → wp (f 0) (fun b s2 e2 d2 => Q b s2 (Ev.nullDeref 420 :: e2) d2) w) ∧
        (∀ q, g = some q →
          wp (f 0) (fun b s2 e2 d2 => Q b s2 (Ev.api 420 true :: e2) d2)
            { w with dicts :=
              (q, dictMerge ((w.dicts.lookup q).getD []) w.main false) :: w.dicts })) := by
  rw [wp_bind, wp_merge]
  simp

/-- When the merge at line 420 succeeds, `add_globals` returns `0`, and the process has not ended
in it. -/
theorem add_globals_merged (o : Oracle) (pEnv g : Option Nat) (w : World)
    (h : Ev.api 420 true ∈ (add_globals o pEnv g w).evs) :
    (add_globals o pEnv g w).val = 0 ∧ (add_globals o pEnv g w).ended = false := by
  have hT : ∀ n w', Ev.api 420 true ∉ (throwWrappedError o pEnv n w').evs := fun n w' =>
    Emits.not_mem (Emits.throwWrapped (C := Ev.isAux) (fun _ h => h) o pEnv n) w' _ rfl
  revert h
  show wp (add_globals o pEnv g)
    (fun v _ evs d => Ev.api 420 true ∈ evs → v = 0 ∧ d = false) w
  unfold add_globals
  simp only [↓wp_bind_pure, ↓wp_bind_emit, ↓wp_bind_newRef, ↓wp_bind_merge, wp_bind, wp_pure,
    wp_ite]
  simp only [wp_call]
  simp [hT]

theorem mapToDictionary_not_mem (o : Oracle) (p : Pass) (pEnv : Option Nat) (m : jobject)
    (w : World) (e : Ev) (h1 : e.isConvert = false) (h2 : marshalTail e = false) :
    e ∉ (mapToDictionary o p pEnv m w).evs := by
  intro hm
  obtain ⟨tail, k1, k2⟩ := mapToDictionary_evs o p pEnv m w
  rw [k1] at hm
  rcases List.mem_cons.1 hm with hm | hm
  · subst hm
    simp [Ev.isConvert] at h1
  · rw [k2 e hm] at h2
    exact Bool.noConfusion h2

theorem add_globals_not_mem (o : Oracle) (pEnv g : Option Nat) (w : World) (e : Ev)
    (h : mergeClass e = false) : e ∉ (add_globals o pEnv g w).evs :=
  Emits.not_mem (add_globals_emits o pEnv g) w e h

theorem throwWrappedError_not_mem (o : Oracle) (pEnv : Option Nat) (n : Nat) (w : World) (e : Ev)
    (h : e.isAux = false) : e ∉ (throwWrappedError o pEnv n w).evs :=
  Emits.not_mem (Emits.throwWrapped (C := Ev.isAux) (fun _ h => h) o pEnv n) w e h

theorem Py_DECREF_not_mem (n : Nat) (p : Option Nat) (w : World) (e : Ev)
    (h : e.isRelease = false) : e ∉ (Py_DECREF n p w).evs :=
  Emits.not_mem (Emits.decref (C := Ev.isRelease) (fun _ h => h) n p) w e h

theorem PyRun_String_mem (o : Oracle) (s : String) (g l : Option Nat) (w : World) (e : Ev) :
    e ∈ (PyRun_String o s g l w).evs ↔ e = Ev.run s g l (PyRun_String o s g l w).val.isSome := by
  unfold PyRun_String
  simp only
  split <;> simp

@[simp] theorem PyRun_String_ended (o : Oracle) (s : String) (g l : Option Nat) (w : World) :
    (PyRun_String o s g l w).ended = false := by
  unfold PyRun_String
  simp only
  split <;> rfl

theorem wp_bind_run {β : Type} (o : Oracle) (s : String) (g l : Option Nat)
    (f : Option Nat → M β) (Q : β → World → List Ev → Bool → Prop) (w : World) :
    wp (PyRun_String o s g l >>= f) Q w ↔
      wp (f (PyRun_String o s g l w).val)
        (fun b s2 e2 d2 => Q b s2 ((PyRun_String o s g l w).evs ++ e2) d2)
        (PyRun_String o s g l w).st := by
  rw [wp_bind]
  simp [wp]

theorem Py_INCREF_not_mem (n : Nat) (p : Option Nat) (w : World) (e : Ev)
    (h : (e.isIncref || e.isRelease) = false) : e ∉ (Py_INCREF n p w).evs :=
  Emits.not_mem (Emits.incref (C := fun e => e.isIncref || e.isRelease) (fun _ => rfl)
    (fun _ => rfl) n p) w e h

theorem PyRun_String_any (o : Oracle) (s : String) (g l : Option Nat) (w : World) :
    (PyRun_String o s g l w).evs.any (Ev.runs s) = true := by
  unfold PyRun_String
  simp only
  split <;> simp [Ev.runs]

theorem execBody_runs_after_merge (o : Oracle) (pEnv : Option Nat) (text : String)
    (locals globals : jobject) (w : World)
    (h : Ev.api 420 true ∈ (execBody o pEnv text locals globals w).evs) :
    (execBody o pEnv text locals globals w).evs.any (Ev.runs text) = true := by
  have hA := add_globals_merged o pEnv
  revert h
  show wp (execBody o pEnv text locals globals)
    (fun _ _ evs _ => Ev.api 420 true ∈ evs → evs.any (Ev.runs text) = true) w
  unfold execBody
  simp only [↓wp_bind_pure, ↓wp_bind_emit, ↓wp_bind_run, ↓wp_bind_decref, ↓wp_bind_incref,
    wp_bind, wp_pure, wp_ite, wp_emit]
  simp only [wp_call, Py_DECREF_st, Py_INCREF_st, List.mem_append, List.mem_singleton,
    List.mem_cons, reduceCtorEq,
    List.not_mem_nil, or_false, false_or, PyRun_String_mem, List.any_append, List.any_cons,
    PyRun_String_any,
    Bool.or_true, Bool.true_or, implies_true, and_true, true_and,
    mapToDictionary_not_mem _ _ _ _ _ (Ev.api 420 true) rfl rfl,
    throwWrappedError_not_mem _ _ _ _ (Ev.api 420 true) rfl,
    Py_DECREF_not_mem _ _ _ (Ev.api 420 true) rfl,
    Py_INCREF_not_mem _ _ _ (Ev.api 420 true) rfl, false_implies, beq_iff_eq,
    Bool.false_eq_true]
  intro _ _
  refine ⟨fun _ _ => ⟨fun he hm => ?_, fun _ hne hm => ?_⟩,
    fun _ _ _ => ⟨fun he hm => ?_, fun _ hne hm => ?_⟩⟩
  · rw [(hA _ _ hm).2] at he
    exact absurd he (by simp)
  · exact absurd (hA _ _ hm).1 hne
  · rw [(hA _ _ hm).2] at he
    exact absurd he (by simp)
  · exact absurd (hA _ _ hm).1 hne

/-! ## The empty script, the lifecycle guard, detach and the fault message -/

theorem runs_elim (text : String) (evs : List Ev) (h : evs.any (Ev.runs text) = true) :
    ∃ g l ok, Ev.run text g l ok ∈ evs := by
  obtain ⟨e, he, hr⟩ := List.any_eq_true.1 h
  cases e <;> simp [Ev.runs] at hr
  case run s g l ok =>
    subst hr
    exact ⟨g, l, ok, he⟩

/-- C7 (counterexample). On an empty script, every host call succeeding, `exec` reports no fault,
acquires the lock, attaches and hands the empty fragment to `PyRun_String`. -/
theorem exec_empty_script_is_executed :
    faults emptyScriptRun.evs = [] ∧ Ev.gilEnsure ∈ emptyScriptRun.evs ∧
      Ev.enter Fn.attach_env ∈ emptyScriptRun.evs ∧
      Ev.run "" (some 7) (some 6) true ∈ emptyScriptRun.evs := by
  decide

theorem attach_env_not_mem (o : Oracle) (pEnv : Option Nat) (w : World) (e : Ev)
    (h1 : e ≠ Ev.enter Fn.attach_env) (h2 : attachTail e = false) :
    e ∉ (attach_env o pEnv w).evs := by
  intro hm
  obtain ⟨tail, k1, k2⟩ := attach_env_evs o pEnv w
  rw [k1] at hm
  rcases List.mem_cons.1 hm with hm | hm
  · exact h1 hm
  · rw [k2 e hm] at h2
    exact Bool.noConfusion h2

theorem check_init_not_mem (o : Oracle) (w : World) (e : Ev) (h : initClass e = false) :
    e ∉ (check_init o w).evs :=
  Emits.not_mem (check_init_emits o) w e h

/-- C7 (amended). For every `exec` call whose script is non-null but empty, `exec` does not
treat it as a contract violation: the argument checks report no fault, the lock is acquired and
attach is entered as for any other script, and whenever the top-level merge succeeds the empty
fragment is handed to the interpreter for execution. -/
theorem exec_empty_script_not_rejected (o : Oracle) (env : Nat) (thiss locals globals : jobject)
    (w : World) :
    (∃ pre rest,
      (exec o (some env) thiss (some "") locals globals w).evs =
        pre ++ Ev.gilEnsure :: Ev.enter Fn.attach_env :: rest ∧
      ∀ e ∈ pre, e.isFault = false ∧ e.isLock = false) ∧
    (Ev.api 420 true ∈ (exec o (some env) thiss (some "") locals globals w).evs →
      ∃ g l ok, Ev.run "" g l ok ∈ (exec o (some env) thiss (some "") locals globals w).evs) := by
  obtain ⟨rest, h, hr1, hr2⟩ := exec_evs o env thiss "" locals globals w
  constructor
  · obtain ⟨ta, ha1, -⟩ := attach_env_evs o (some env) (check_init o w).st
    rw [ha1] at h
    refine ⟨(check_init o w).evs, _, h, ?_⟩
    intro e he
    obtain ⟨k1, -, -, -, -, -, k7, -⟩ := initClass_kinds e (check_init_emits o w e he)
    exact ⟨k7, k1⟩
  · intro hm
    rw [h] at hm ⊢
    simp only [List.mem_append, List.mem_cons, reduceCtorEq, false_or,
      check_init_not_mem o _ (Ev.api 420 true) rfl,
      attach_env_not_mem o _ _ (Ev.api 420 true) (by simp) rfl] at hm
    by_cases h0 : (attach_env o (some env) (check_init o w).st).val = 0
    · obtain ⟨post, hp, hpost⟩ := hr2 h0
      rw [hp] at hm ⊢
      rcases List.mem_append.1 hm with hm | hm
      · obtain ⟨g, l, ok, hrun⟩ := runs_elim _ _ (execBody_runs_after_merge o (some env) ""
          locals globals _ hm)
        exact ⟨g, l, ok, by simp [hrun]⟩
      · exact absurd rfl (exitClass_kinds _ (hpost _ hm)).2.2.2.2.2.2.2.2.2
    · exact absurd rfl (exitClass_kinds _ (hr1 h0 _ hm)).2.2.2.2.2.2.2.2.2

theorem check_init_noop (o : Oracle) (w : World) (h : w.initialized ≠ 0) :
    check_init o w = ⟨(), w, [], false⟩ := by
  simp [check_init, getInitialized, Py_IsInitialized, h, bind_run]

theorem check_init_calls_noop (os : List Oracle) (w : World) (h : w.initialized ≠ 0) :
    check_init_calls os w = ⟨(), w, [], false⟩ := by
  induction os with
  | nil => rfl
  | cons o rest ih =>
    simp [check_init_calls, bind_run, check_init_noop o w h, ih]

theorem check_init_first (o : Oracle) (w : World) (h0 : w.initialized = 0)
    (h1 : w.pyInit = false) :
    (check_init o w).st.initialized = 1 ∧
      ∃ tail, (check_init o w).evs =
        Ev.pyInitialize :: ((if o.win32 = true then [Ev.api 159 true] else []) ++
          Ev.enter Fn.set_vm :: tail) ∧
        ∀ e ∈ tail, (e.apiIn initLines || e.isRelease) = true := by
  obtain ⟨i, p, e, n, d, m⟩ := w
  simp only at h0 h1
  subst h0 h1
  obtain ⟨tail, k1, k2⟩ := set_vm_evs o ⟨0, true, none, n, d, m⟩
  have ha := set_vm_alive o ⟨0, true, none, n, d, m⟩
  cases hw : o.win32
  · refine ⟨?_, tail, ?_, k2⟩
    · simp [check_init, getInitialized, Py_IsInitialized, Py_Initialize, setInitialized, hw, ha]
    · rw [← k1]
      simp [check_init, getInitialized, Py_IsInitialized, Py_Initialize, setInitialized, hw, ha]
  · refine ⟨?_, tail, ?_, k2⟩
    · simp [check_init, getInitialized, Py_IsInitialized, Py_Initialize, setInitialized, hw, ha]
    · rw [← k1]
      simp [check_init, getInitialized, Py_IsInitialized, Py_Initialize, setInitialized, hw, ha]

/-- C9. For every sequence of `check_init` calls that starts with the interpreter not initialised
and the flag clear, whatever each host call answers: the interpreter is initialised exactly once
and the handshake `set_vm` is entered exactly once, both by the first call; the first call leaves
`initialized = 1` whether or not the handshake succeeded; every later call performs nothing and
changes nothing. -/
theorem check_init_idempotent (o : Oracle) (os : List Oracle) (w : World)
    (h0 : w.initialized = 0) (h1 : w.pyInit = false) :
    (check_init_calls (o :: os) w).evs.count Ev.pyInitialize = 1 ∧
      (check_init_calls (o :: os) w).evs.count (Ev.enter Fn.set_vm) = 1 ∧
      (check_init o w).st.initialized = 1 ∧
      (check_init_calls (o :: os) w).evs = (check_init o w).evs ∧
      (check_init_calls (o :: os) w).st = (check_init o w).st := by
  obtain ⟨hi, tail, k1, k2⟩ := check_init_first o w h0 h1
  have hn : (check_init o w).st.initialized ≠ 0 := by rw [hi]; decide
  have hrest := check_init_calls_noop os (check_init o w).st hn
  have hevs : (check_init_calls (o :: os) w).evs = (check_init o w).evs := by
    simp only [check_init_calls, bind_evs, hrest, List.append_nil, ite_self]
  have hst : (check_init_calls (o :: os) w).st = (check_init o w).st := by
    simp only [check_init_calls, bind_st, hrest, ite_self]
  have t1 : tail.count Ev.pyInitialize = 0 := by
    apply List.count_eq_zero.2
    intro hm
    have := k2 _ hm
    simp [Ev.apiIn, Ev.isRelease] at this
  have t2 : tail.count (Ev.enter Fn.set_vm) = 0 := by
    apply List.count_eq_zero.2
    intro hm
    have := k2 _ hm
    simp [Ev.apiIn, Ev.isRelease] at this
  refine ⟨?_, ?_, hi, hevs, hst⟩
  · rw [hevs, k1]
    cases o.win32 <;> simp [List.count_cons, t1]
  · rw [hevs, k1]
    cases o.win32 <;> simp [List.count_cons, t2]

/-- C9 (witness). Three calls from a fresh process, the handshake of the first failing on the import
of the bridge module: the interpreter is initialised once. -/
theorem check_init_idempotent_witness :
    freshWorld.initialized = 0 ∧ freshWorld.pyInit = false ∧
      (check_init_calls [failAt 109 "ImportError", okOracle, okOracle] freshWorld).evs.count
        Ev.pyInitialize = 1 :=
  ⟨rfl, rfl, (check_init_idempotent (failAt 109 "ImportError") [okOracle, okOracle] freshWorld
    rfl rfl).1⟩

/-- C10 (the code at the failing input). When `PyTuple_New(0)` fails at line 291, `detach_env`
reports the fault, releases `pJNIExit` and `pJavabridge`, and then, instead of returning, calls
`jni_exit` at line 297, releases the result, dereferences the null `pArgs` at line 306, releases
`pJNIExit` and `pJavabridge` a second time and returns `0`. -/
theorem detach_env_tuple_failure_falls_through :
    (detach_env (failAt 291 "MemoryError") (some 1) readyWorld).val = 0 ∧
      (detach_env (failAt 291 "MemoryError") (some 1) readyWorld).evs =
        [Ev.enter Fn.detach_env, Ev.api 280 true, Ev.api 285 true, Ev.api 291 false,
          Ev.errPrint "MemoryError", Ev.findClass true,
          Ev.throw "java/lang/Error"
            "Python exception at org_cellprofiler_javabridge_CPython.c:293",
          Ev.errClear, Ev.decref 2, Ev.decref 1,
          Ev.api 297 true, Ev.decref 3, Ev.nullDeref 306, Ev.decref 2, Ev.decref 1] := by
  decide

/-- C4 (the code at the failing input). When the fragment raises, whatever the text of its
exception, `exec` prints that text to stderr (`PyErr_Print`) and the one fault it reports to host A
carries the message `Python exception at <file>:464`, the same for every exception. -/
theorem exec_fault_message_omits_failure_text (text : String) :
    faults (exec (failAt 458 text) (some 1) none (some "1/0") none none readyWorld).evs =
        [Ev.throw "java/lang/Error"
          "Python exception at org_cellprofiler_javabridge_CPython.c:464"] ∧
      (exec (failAt 458 text) (some 1) none (some "1/0") none none readyWorld).evs.filter
          Ev.isReport =
        [Ev.errPrint text, Ev.findClass true,
          Ev.throw "java/lang/Error"
            "Python exception at org_cellprofiler_javabridge_CPython.c:464",
          Ev.errClear] :=
  ⟨rfl, rfl⟩

/-! ## The top-level merge and the namespaces -/

theorem lookup_append (a b : PyDict) (k : String) :
    (a ++ b).lookup k = (a.lookup k).orElse (fun _ => b.lookup k) := by
  induction a with
  | nil => simp
  | cons kv t ih =>
    obtain ⟨k', v'⟩ := kv
    by_cases h : k = k'
    · subst h
      simp [List.lookup]
    · have : (k == k') = false := by simpa using h
      simp [List.lookup, this, ih]

/-- Merging without override: a key bound in `a` keeps its binding, any other key gets the binding
it has in `b`, if any. -/
theorem dictMerge_lookup (a b : PyDict) (k : String) :
    (dictMerge a b false).lookup k = (a.lookup k).orElse (fun _ => b.lookup k) := by
  unfold dictMerge
  induction b generalizing a with
  | nil => cases h : a.lookup k <;> simp [h]
  | cons kv t ih =>
    obtain ⟨k', v'⟩ := kv
    rw [List.foldl_cons, ih]
    unfold mergeStep
    cases h : a.lookup k' with
    | none =>
      simp only [lookup_append]
      by_cases hk : k = k'
      · subst hk
        simp [h, List.lookup]
      · have : (k == k') = false := by simpa using hk
        cases h2 : a.lookup k <;> simp [List.lookup, this]
    | some v =>
      simp only [Bool.false_eq_true, if_false]
      by_cases hk : k = k'
      · subst hk
        simp [h]
      · have : (k == k') = false := by simpa using hk
        cases h2 : a.lookup k <;> simp [List.lookup, this]

/-- C3. For every globals namespace `G` (the contents of the dictionary `g`) and every top-level
namespace `M` (the dictionary of `__main__`), when `add_globals` succeeds the resulting globals is
the union of `G` and `M` in which the caller's bindings win: a key bound in `G` keeps the value `G`
gives it, a key not bound in `G` has exactly the binding `M` gives it, so a key bound in neither is
absent; `__main__` itself is not changed. -/
theorem add_globals_caller_bindings_win (o : Oracle) (pEnv : Option Nat) (g : Nat) (G : PyDict)
    (w : World) (hG : w.dicts.lookup g = some G)
    (hok : (add_globals o pEnv (some g) w).val = 0) :
    ∃ D, (add_globals o pEnv (some g) w).st.dicts.lookup g = some D ∧
      (∀ k v, G.lookup k = some v → D.lookup k = some v) ∧
      (∀ k, G.lookup k = none → D.lookup k = w.main.lookup k) ∧
      (add_globals o pEnv (some g) w).st.main = w.main := by
  have key : wp (add_globals o pEnv (some g)) (fun v s _ _ => v = 0 →
      s.dicts.lookup g = some (dictMerge G w.main false) ∧ s.main = w.main) w := by
    unfold add_globals
    simp only [↓wp_bind_pure, ↓wp_bind_emit, ↓wp_bind_newRef, ↓wp_bind_merge, wp_bind, wp_pure,
      wp_ite]
    simp only [wp_call, bind_val, pure_run]
    simp [hG, List.lookup]
  obtain ⟨k1, k2⟩ := key hok
  refine ⟨_, k1, ?_, ?_, k2⟩
  · intro k v hk
    rw [dictMerge_lookup, hk]
    rfl
  · intro k hk
    rw [dictMerge_lookup, hk]
    rfl

/-- C3 (witness). With `x` bound by the caller and `x`, `y` bound in `__main__`, the merged globals
keeps the caller's `x`, gains `y` and has no `z`. -/
theorem add_globals_caller_bindings_win_witness :
    mergeWorld.dicts.lookup 5 = some [("x", 1)] ∧
      (add_globals okOracle (some 1) (some 5) mergeWorld).val = 0 ∧
      ∃ D, (add_globals okOracle (some 1) (some 5) mergeWorld).st.dicts.lookup 5 = some D ∧
        D.lookup "x" = some 1 ∧ D.lookup "y" = some 3 ∧ D.lookup "z" = none := by
  obtain ⟨D, h1, h2, h3, -⟩ := add_globals_caller_bindings_win okOracle (some 1) 5 [("x", 1)]
    mergeWorld (by decide) (by decide)
  exact ⟨by decide, by decide, D, h1, h2 "x" 1 (by decide), (h3 "y" (by decide)).trans (by decide),
    (h3 "z" (by decide)).trans (by decide)⟩

theorem wp_bind_newDict {β : Type} (o : Oracle) (p : Pass) (line : Nat) (items : PyDict)
    (f : Option Nat → M β) (Q : β → World → List Ev → Bool → Prop) (w : World) :
    wp (newDict o p line items >>= f) Q w ↔
      (o.py p line = none →
        wp (f (some w.next)) (fun b s2 e2 d2 => Q b s2 (Ev.api line true :: e2) d2)
          { w with next := w.next + 1, dicts := (w.next, items) :: w.dicts }) ∧
      (∀ e, o.py p line = some e →
        wp (f none) (fun b s2 e2 d2 => Q b s2 (Ev.api line false :: e2) d2)
          { w with err := some e }) := by
  rw [wp_bind]
  unfold wp newDict
  cases h : o.py p line <;> simp

@[simp] theorem throwWrappedError_next (o : Oracle) (pEnv : Option Nat) (n : Nat) (w : World) :
    (throwWrappedError o pEnv n w).st.next = w.next := by
  unfold throwWrappedError throwErrorJ PyErr_Print PyErr_Clear
  cases pEnv <;> cases h : w.err <;> cases h2 : o.findClass (wrappedMessage o.file n) <;>
    cases h3 : w.pyInit <;> cases h4 : (o.systemExit && fromFragment n) <;>
    simp [h, h2, h3, h4]

/-- The namespace `mapToDictionary` returns is a new object, and the process has not ended in a
conversion that returns one. -/
theorem mapToDictionary_fresh (o : Oracle) (p : Pass) (pEnv : Option Nat) (map : jobject)
    (w : World) (q : Nat) (h : (mapToDictionary o p pEnv map w).val = some q) :
    w.next ≤ q ∧ q < (mapToDictionary o p pEnv map w).st.next ∧
      (mapToDictionary o p pEnv map w).ended = false := by
  revert h
  show wp (mapToDictionary o p pEnv map)
    (fun v s _ d => v = some q → w.next ≤ q ∧ q < s.next ∧ d = false) w
  unfold mapToDictionary
  cases map with
  | none =>
    simp only []
    simp only [↓wp_bind_pure, ↓wp_bind_emit, ↓wp_bind_newRef, ↓wp_bind_newDict, ↓wp_bind_decref,
      wp_bind, wp_pure, wp_ite]
    simp only [wp_call, throwWrappedError_next, Option.isNone_some, Option.isNone_none,
      bind_val, pure_run, ite_run,
      Bool.false_eq_true, false_implies, true_and, not_false_eq_true, true_implies, not_true_eq_false,
      reduceCtorEq, and_true, implies_true, Option.some.injEq]
    intro _ h
    omega
  | some r =>
    simp only [wrapJObject, Option.isNone_some, Bool.false_eq_true, if_false]
    simp only [↓wp_bind_pure, ↓wp_bind_emit, ↓wp_bind_newRef, ↓wp_bind_newDict, ↓wp_bind_decref,
      wp_bind, wp_pure, wp_ite]
    simp only [wp_call, throwWrappedError_next, Py_DECREF_st, Option.isNone_some, Option.isNone_none,
      bind_val, pure_run, ite_run, Py_DECREF_ended, if_true,
      Bool.false_eq_true, false_implies, true_and, not_false_eq_true, true_implies, not_true_eq_false,
      reduceCtorEq, and_true, implies_true, Option.some.injEq]
    intro _ _ _ _ _ _ _ _ _ h
    omega

/-- The namespaces two successive conversions return are different objects. -/
theorem mapToDictionary_twice_ne (o : Oracle) (p1 p2 : Pass) (pEnv : Option Nat) (m1 m2 : jobject)
    (w : World) (h1 : (mapToDictionary o p1 pEnv m1 w).val.isSome = true)
    (h2 : (mapToDictionary o p2 pEnv m2 (mapToDictionary o p1 pEnv m1 w).st).val.isSome = true) :
    (mapToDictionary o p2 pEnv m2 (mapToDictionary o p1 pEnv m1 w).st).val ≠
      (mapToDictionary o p1 pEnv m1 w).val := by
  obtain ⟨a, ha⟩ := Option.isSome_iff_exists.1 h1
  obtain ⟨b, hb⟩ := Option.isSome_iff_exists.1 h2
  have k1 := mapToDictionary_fresh o p1 pEnv m1 w a ha
  have k2 := mapToDictionary_fresh o p2 pEnv m2 _ b hb
  rw [ha, hb]
  intro h
  have : b = a := Option.some.inj h
  omega

theorem filter_nil_of_emits {α : Type} {C : Ev → Bool} {x : M α} (h : Emits C x)
    (P : Ev → Bool) (hP : ∀ e, C e = true → P e = false) (w : World) :
    (x w).evs.filter P = [] := by
  apply List.filter_eq_nil_iff.2
  intro e he
  rw [hP e (h w e he)]
  exact Bool.false_ne_true

theorem mapToDictionary_converts (o : Oracle) (p : Pass) (pEnv : Option Nat) (m : jobject)
    (w : World) :
    (mapToDictionary o p pEnv m w).evs.filter Ev.isConvert = [Ev.enter (Fn.mapToDictionary m)] := by
  obtain ⟨tail, k1, k2⟩ := mapToDictionary_evs o p pEnv m w
  rw [k1, List.filter_cons_of_pos (by rfl)]
  congr 1
  apply List.filter_eq_nil_iff.2
  intro e he
  rw [(marshalTail_kinds e (k2 e he)).2.2.2.1]
  exact Bool.false_ne_true

theorem add_globals_converts (o : Oracle) (pEnv g : Option Nat) (w : World) :
    (add_globals o pEnv g w).evs.filter Ev.isConvert = [] :=
  filter_nil_of_emits (add_globals_emits o pEnv g) _
    (fun e he => (mergeClass_kinds e he).2.2.2.1) w

theorem throwWrappedError_converts (o : Oracle) (pEnv : Option Nat) (n : Nat) (w : World) :
    (throwWrappedError o pEnv n w).evs.filter Ev.isConvert = [] :=
  filter_nil_of_emits (Emits.throwWrapped (C := Ev.isAux) (fun _ h => h) o pEnv n) _
    (fun e he => by cases e <;> simp_all [Ev.isAux, Ev.isReport, Ev.isRelease, Ev.isConvert]) w

theorem Py_DECREF_converts (n : Nat) (p : Option Nat) (w : World) :
    (Py_DECREF n p w).evs.filter Ev.isConvert = [] := by
  cases p <;> rfl

theorem Py_INCREF_converts (n : Nat) (p : Option Nat) (w : World) :
    (Py_INCREF n p w).evs.filter Ev.isConvert = [] := by
  cases p <;> rfl

theorem PyRun_String_converts (o : Oracle) (s : String) (g l : Option Nat) (w : World) :
    (PyRun_String o s g l w).evs.filter Ev.isConvert = [] := by
  unfold PyRun_String
  simp only
  split <;> rfl

theorem run_not_mem_mapToDictionary (o : Oracle) (p : Pass) (pEnv : Option Nat) (m : jobject)
    (w : World) (s : String) (g l : Option Nat) (ok : Bool) :
    Ev.run s g l ok ∉ (mapToDictionary o p pEnv m w).evs :=
  mapToDictionary_not_mem o p pEnv m w _ rfl rfl

theorem run_not_mem_add_globals (o : Oracle) (pEnv g' : Option Nat) (w : World) (s : String)
    (g l : Option Nat) (ok : Bool) : Ev.run s g l ok ∉ (add_globals o pEnv g' w).evs :=
  add_globals_not_mem o pEnv g' w _ rfl

theorem run_not_mem_throwWrappedError (o : Oracle) (pEnv : Option Nat) (n : Nat) (w : World)
    (s : String) (g l : Option Nat) (ok : Bool) :
    Ev.run s g l ok ∉ (throwWrappedError o pEnv n w).evs :=
  throwWrappedError_not_mem o pEnv n w _ rfl

theorem run_not_mem_Py_DECREF (n : Nat) (p : Option Nat) (w : World) (s : String)
    (g l : Option Nat) (ok : Bool) : Ev.run s g l ok ∉ (Py_DECREF n p w).evs :=
  Py_DECREF_not_mem n p w _ rfl

theorem run_not_mem_Py_INCREF (n : Nat) (p : Option Nat) (w : World) (s : String)
    (g l : Option Nat) (ok : Bool) : Ev.run s g l ok ∉ (Py_INCREF n p w).evs :=
  Py_INCREF_not_mem n p w _ rfl

theorem incref_count_mapToDictionary (o : Oracle) (p : Pass) (pEnv : Option Nat) (m : jobject)
    (w : World) (q : Nat) : (mapToDictionary o p pEnv m w).evs.count (Ev.incref q) = 0 :=
  List.count_eq_zero.2 (mapToDictionary_not_mem o p pEnv m w _ rfl rfl)

theorem incref_count_add_globals (o : Oracle) (pEnv g : Option Nat) (w : World) (q : Nat) :
    (add_globals o pEnv g w).evs.count (Ev.incref q) = 0 :=
  List.count_eq_zero.2 (add_globals_not_mem o pEnv g w _ rfl)

theorem incref_count_throwWrappedError (o : Oracle) (pEnv : Option Nat) (n : Nat) (w : World)
    (q : Nat) : (throwWrappedError o pEnv n w).evs.count (Ev.incref q) = 0 :=
  List.count_eq_zero.2 (throwWrappedError_not_mem o pEnv n w _ rfl)

theorem incref_count_Py_DECREF (n : Nat) (p : Option Nat) (w : World) (q : Nat) :
    (Py_DECREF n p w).evs.count (Ev.incref q) = 0 :=
  List.count_eq_zero.2 (Py_DECREF_not_mem n p w _ rfl)

theorem incref_count_PyRun_String (o : Oracle) (s : String) (g l : Option Nat) (w : World)
    (q : Nat) : (PyRun_String o s g l w).evs.count (Ev.incref q) = 0 := by
  apply List.count_eq_zero.2
  rw [PyRun_String_mem]
  exact Ev.noConfusion

theorem filter_convert_getChars (l : List Ev) :
    (Ev.getChars :: l).filter Ev.isConvert = l.filter Ev.isConvert := rfl

theorem filter_convert_releaseChars (l : List Ev) :
    (Ev.releaseChars :: l).filter Ev.isConvert = l.filter Ev.isConvert := rfl

theorem count_incref_getChars (p : Nat) (l : List Ev) :
    (Ev.getChars :: l).count (Ev.incref p) = l.count (Ev.incref p) := by
  simp [List.count_cons]

theorem count_incref_releaseChars (p : Nat) (l : List Ev) :
    (Ev.releaseChars :: l).count (Ev.incref p) = l.count (Ev.incref p) := by
  simp [List.count_cons]

/-- Lines 446-470 of `exec` when `locals` and `globals` designate the same Java object. -/
theorem execBody_same (o : Oracle) (pEnv : Option Nat) (text : String) (a b : JRef) (w : World)
    (hab : a.obj = b.obj) :
    (execBody o pEnv text (some a) (some b) w).evs.filter Ev.isConvert =
        [Ev.enter (Fn.mapToDictionary (some a))] ∧
      (∀ s g l ok, Ev.run s g l ok ∈ (execBody o pEnv text (some a) (some b) w).evs →
        g = (mapToDictionary o Pass.locals pEnv (some a) w).val ∧
          l = (mapToDictionary o Pass.locals pEnv (some a) w).val) ∧
      (∀ p, (mapToDictionary o Pass.locals pEnv (some a) w).val = some p →
        (execBody o pEnv text (some a) (some b) w).evs.count (Ev.incref p) = 1) := by
  have hc : (Option.isSome (some a) && IsSameObject (some a) (some b)) = true := by
    simp [IsSameObject, hab]
  refine ⟨?_, ?_, ?_⟩
  · show wp (execBody o pEnv text (some a) (some b))
      (fun _ _ evs _ => evs.filter Ev.isConvert = [Ev.enter (Fn.mapToDictionary (some a))]) w
    unfold execBody
    simp only [↓wp_bind_pure, ↓wp_bind_emit, ↓wp_bind_run, ↓wp_bind_decref, ↓wp_bind_incref,
      wp_bind, wp_pure, wp_ite, wp_emit, hc]
    simp only [wp_call, List.filter_append, mapToDictionary_converts, add_globals_converts,
      throwWrappedError_converts, filter_convert_getChars, filter_convert_releaseChars,
      Py_DECREF_converts, Py_INCREF_converts, PyRun_String_converts,
      List.filter_nil, List.append_nil, List.nil_append]
    simp [Ev.isConvert]
  · show wp (execBody o pEnv text (some a) (some b))
      (fun _ _ evs _ => ∀ s g l ok, Ev.run s g l ok ∈ evs →
        g = (mapToDictionary o Pass.locals pEnv (some a) w).val ∧
          l = (mapToDictionary o Pass.locals pEnv (some a) w).val) w
    unfold execBody
    simp only [↓wp_bind_pure, ↓wp_bind_emit, ↓wp_bind_run, ↓wp_bind_decref, ↓wp_bind_incref,
      wp_bind, wp_pure, wp_ite, wp_emit, hc]
    simp only [wp_call, Py_DECREF_st, Py_INCREF_st, List.mem_append, List.mem_singleton,
      List.mem_cons, List.not_mem_nil, or_false, false_or, PyRun_String_mem,
      run_not_mem_mapToDictionary,
      run_not_mem_add_globals, run_not_mem_throwWrappedError, run_not_mem_Py_DECREF,
      run_not_mem_Py_INCREF, reduceCtorEq, Ev.run.injEq]
    tauto
  · intro p hp
    have hLa := (mapToDictionary_fresh o Pass.locals pEnv (some a) w p hp).2.2
    show wp (execBody o pEnv text (some a) (some b))
      (fun _ _ evs _ => evs.count (Ev.incref p) = 1) w
    unfold execBody
    simp only [↓wp_bind_pure, ↓wp_bind_emit, ↓wp_bind_run, ↓wp_bind_decref, ↓wp_bind_incref,
      wp_bind, wp_pure, wp_ite, wp_emit, hc]
    simp only [wp_call, Py_DECREF_st, Py_INCREF_st, List.count_append,
      incref_count_mapToDictionary, incref_count_add_globals, incref_count_throwWrappedError,
      incref_count_Py_DECREF, incref_count_PyRun_String, count_incref_getChars,
      count_incref_releaseChars, List.count_nil, hp, hLa]
    simp [Py_INCREF, List.count_cons]

/-- Lines 446-470 of `exec` when `locals` and `globals` designate different Java objects and the
conversion of `locals` succeeds. -/
theorem execBody_diff (o : Oracle) (pEnv : Option Nat) (text : String) (a b : JRef) (w : World)
    (hab : a.obj ≠ b.obj)
    (hL : (mapToDictionary o Pass.locals pEnv (some a) w).val.isSome = true) :
    (execBody o pEnv text (some a) (some b) w).evs.filter Ev.isConvert =
        [Ev.enter (Fn.mapToDictionary (some a)), Ev.enter (Fn.mapToDictionary (some b))] ∧
      (∀ s g l ok, Ev.run s g l ok ∈ (execBody o pEnv text (some a) (some b) w).evs →
        g = (mapToDictionary o Pass.globals pEnv (some b)
            (mapToDictionary o Pass.locals pEnv (some a) w).st).val ∧
          l = (mapToDictionary o Pass.locals pEnv (some a) w).val ∧ g ≠ l) := by
  have hc : ¬ (Option.isSome (some a) && IsSameObject (some a) (some b)) = true := by
    simp [IsSameObject, hab]
  have hne := mapToDictionary_twice_ne o Pass.locals Pass.globals pEnv (some a) (some b) w hL
  have hLa : (mapToDictionary o Pass.locals pEnv (some a) w).ended = false := by
    obtain ⟨q, hq⟩ := Option.isSome_iff_exists.1 hL
    exact (mapToDictionary_fresh o Pass.locals pEnv (some a) w q hq).2.2
  refine ⟨?_, ?_⟩
  · show wp (execBody o pEnv text (some a) (some b))
      (fun _ _ evs _ => evs.filter Ev.isConvert =
        [Ev.enter (Fn.mapToDictionary (some a)), Ev.enter (Fn.mapToDictionary (some b))]) w
    unfold execBody
    simp only [↓wp_bind_pure, ↓wp_bind_emit, ↓wp_bind_run, ↓wp_bind_decref, ↓wp_bind_incref,
      wp_bind, wp_pure, wp_ite, wp_emit, hc]
    simp only [wp_call, List.filter_append, mapToDictionary_converts, add_globals_converts,
      throwWrappedError_converts, filter_convert_getChars, filter_convert_releaseChars,
      Py_DECREF_converts, Py_INCREF_converts, PyRun_String_converts,
      List.filter_nil, List.append_nil, List.nil_append, hL, hLa]
    simp [Ev.isConvert]
  · have key : wp (execBody o pEnv text (some a) (some b))
        (fun _ _ evs _ => ∀ s g l ok, Ev.run s g l ok ∈ evs →
          g = (mapToDictionary o Pass.globals pEnv (some b)
              (mapToDictionary o Pass.locals pEnv (some a) w).st).val ∧
            l = (mapToDictionary o Pass.locals pEnv (some a) w).val ∧
            (mapToDictionary o Pass.globals pEnv (some b)
              (mapToDictionary o Pass.locals pEnv (some a) w).st).val ≠
              (mapToDictionary o Pass.locals pEnv (some a) w).val) w := by
      unfold execBody
      simp only [↓wp_bind_pure, ↓wp_bind_emit, ↓wp_bind_run, ↓wp_bind_decref, ↓wp_bind_incref,
        wp_bind, wp_pure, wp_ite, wp_emit, hc]
      simp only [wp_call, Py_DECREF_st, Py_INCREF_st, List.mem_append, List.mem_singleton,
        List.mem_cons, List.not_mem_nil, or_false, false_or, PyRun_String_mem,
        run_not_mem_mapToDictionary,
        run_not_mem_add_globals, run_not_mem_throwWrappedError, run_not_mem_Py_DECREF,
        run_not_mem_Py_INCREF, reduceCtorEq, Ev.run.injEq]
      tauto
    intro s g l ok hm
    obtain ⟨k1, k2, k3⟩ := key s g l ok hm
    refine ⟨k1, k2, ?_⟩
    rw [k1, k2]
    exact k3

theorem check_init_converts (o : Oracle) (w : World) :
    (check_init o w).evs.filter Ev.isConvert = [] :=
  filter_nil_of_emits (check_init_emits o) _
    (fun e he => (initClass_kinds e he).2.2.2.2.2.2.2.1) w

theorem attach_env_converts (o : Oracle) (pEnv : Option Nat) (w : World) :
    (attach_env o pEnv w).evs.filter Ev.isConvert = [] := by
  obtain ⟨tail, k1, k2⟩ := attach_env_evs o pEnv w
  rw [k1, List.filter_cons_of_neg (by simp [Ev.isConvert])]
  apply List.filter_eq_nil_iff.2
  intro e he
  rw [(attachTail_kinds e (k2 e he)).2.2.2.2.2.2.1]
  exact Bool.false_ne_true

/-- C2. In every `exec` call that reaches marshalling (attach has succeeded) with `locals` and
`globals` two references `a` and `b`:
when `a` and `b` designate the same Java object, the map is converted exactly once (the one
conversion is that of `locals`), every fragment execution receives as globals and as locals the
very object that conversion returned, and that object's reference count is raised exactly once;
when they designate different objects and the conversion of `locals` succeeds, there are exactly
two conversions, of `locals` and then of `globals`, and every fragment execution receives as
globals the object the second conversion returned, which is not the locals object. -/
theorem exec_aliases_same_map (o : Oracle) (env : Nat) (thiss : jobject) (text : String)
    (a b : JRef) (w : World)
    (hatt : (attach_env o (some env) (check_init o w).st).val = 0) :
    (a.obj = b.obj →
      (exec o (some env) thiss (some text) (some a) (some b) w).evs.filter Ev.isConvert =
          [Ev.enter (Fn.mapToDictionary (some a))] ∧
        (∀ s g l ok,
          Ev.run s g l ok ∈ (exec o (some env) thiss (some text) (some a) (some b) w).evs →
          g = l ∧ l = (mapToDictionary o Pass.locals (some env) (some a)
            (attach_env o (some env) (check_init o w).st).st).val) ∧
        (∀ p, (mapToDictionary o Pass.locals (some env) (some a)
            (attach_env o (some env) (check_init o w).st).st).val = some p →
          (exec o (some env) thiss (some text) (some a) (some b) w).evs.count (Ev.incref p) = 1)) ∧
    (a.obj ≠ b.obj →
      (mapToDictionary o Pass.locals (some env) (some a)
        (attach_env o (some env) (check_init o w).st).st).val.isSome = true →
      (exec o (some env) thiss (some text) (some a) (some b) w).evs.filter Ev.isConvert =
          [Ev.enter (Fn.mapToDictionary (some a)), Ev.enter (Fn.mapToDictionary (some b))] ∧
        (∀ s g l ok,
          Ev.run s g l ok ∈ (exec o (some env) thiss (some text) (some a) (some b) w).evs →
          g = (mapToDictionary o Pass.globals (some env) (some b)
              (mapToDictionary o Pass.locals (some env) (some a)
                (attach_env o (some env) (check_init o w).st).st).st).val ∧
            l = (mapToDictionary o Pass.locals (some env) (some a)
              (attach_env o (some env) (check_init o w).st).st).val ∧ g ≠ l)) := by
  obtain ⟨rest, h, -, hr2⟩ := exec_evs o env thiss text (some a) (some b) w
  obtain ⟨post, hp, hpost⟩ := hr2 hatt
  rw [hp] at h
  have hrun : ∀ s g l ok,
      Ev.run s g l ok ∈ (exec o (some env) thiss (some text) (some a) (some b) w).evs →
      Ev.run s g l ok ∈ (execBody o (some env) text (some a) (some b)
        (attach_env o (some env) (check_init o w).st).st).evs := by
    intro s g l ok hm
    rw [h] at hm
    simp only [List.mem_append, List.mem_cons, reduceCtorEq, false_or,
      check_init_not_mem o _ (Ev.run s g l ok) rfl,
      attach_env_not_mem o _ _ (Ev.run s g l ok) (by simp) rfl] at hm
    rcases hm with hm | hm
    · exact hm
    · have := (exitClass_kinds _ (hpost _ hm)).2.2.2.1
      simp [Ev.isRun] at this
  have hpc : post.filter Ev.isConvert = [] := by
    apply List.filter_eq_nil_iff.2
    intro e he
    rw [(exitClass_kinds e (hpost e he)).2.2.2.2.2.1]
    exact Bool.false_ne_true
  have hconv : (exec o (some env) thiss (some text) (some a) (some b) w).evs.filter Ev.isConvert =
      (execBody o (some env) text (some a) (some b)
        (attach_env o (some env) (check_init o w).st).st).evs.filter Ev.isConvert := by
    rw [h]
    simp only [List.filter_append, List.filter_cons, check_init_converts, attach_env_converts,
      hpc, List.nil_append, List.append_nil, List.filter_nil]
    simp [Ev.isConvert]
  constructor
  · intro hab
    obtain ⟨k1, k2, k3⟩ := execBody_same o (some env) text a b
      (attach_env o (some env) (check_init o w).st).st hab
    refine ⟨hconv.trans k1, ?_, ?_⟩
    · intro s g l ok hm
      obtain ⟨e1, e2⟩ := k2 s g l ok (hrun s g l ok hm)
      exact ⟨e1.trans e2.symm, e2⟩
    · intro p hp
      have hpi : post.count (Ev.incref p) = 0 := by
        apply List.count_eq_zero.2
        intro hm
        have := (exitClass_kinds _ (hpost _ hm)).2.2.2.2.2.2.1
        simp [Ev.isIncref] at this
      rw [h]
      simp only [List.count_append, List.count_cons, List.count_nil, k3 p hp, hpi,
        List.count_eq_zero.2 (check_init_not_mem o w (Ev.incref p) rfl),
        List.count_eq_zero.2 (attach_env_not_mem o _ _ (Ev.incref p) (by simp) rfl)]
      simp
  · intro hab hL
    obtain ⟨k1, k2⟩ := execBody_diff o (some env) text a b
      (attach_env o (some env) (check_init o w).st).st hab hL
    exact ⟨hconv.trans k1, fun s g l ok hm => k2 s g l ok (hrun s g l ok hm)⟩

/-- C6 (witness). When the import of the bridge module fails at line 231, `attach_env` returns a
non-zero value with one fault reported and `exec` does no marshalling, merge or execution. -/
theorem exec_attach_failure_skips_work_witness :
    (∃ l ∈ attachLines, ((failAt 231 "ImportError").py Pass.main l).isSome = true) ∧
      (attach_env (failAt 231 "ImportError") (some 1)
        (check_init (failAt 231 "ImportError") readyWorld).st).val ≠ 0 ∧
      (faults (attach_env (failAt 231 "ImportError") (some 1)
        (check_init (failAt 231 "ImportError") readyWorld).st).evs).length = 1 ∧
      ∀ e ∈ (exec (failAt 231 "ImportError") (some 1) none (some "x = 1") none none
          readyWorld).evs,
        e.isMarshal = false ∧ e.isMerge = false ∧ e.isRun = false :=
  ⟨⟨231, by decide, by decide⟩,
    exec_attach_failure_skips_work (failAt 231 "ImportError") 1 none "x = 1" none none readyWorld
      ⟨231, by decide, by decide⟩⟩

/-- C2 (witness). Two references to the Java object `5`: one conversion, and the fragment runs
with the same object `14` as globals and as locals. -/
theorem exec_aliases_same_map_witness :
    (attach_env okOracle (some 1) (check_init okOracle readyWorld).st).val = 0 ∧
      (exec okOracle (some 1) none (some "x = 1") (some ⟨1, 5⟩) (some ⟨2, 5⟩) readyWorld).evs.filter
          Ev.isConvert = [Ev.enter (Fn.mapToDictionary (some ⟨1, 5⟩))] ∧
      Ev.run "x = 1" (some 14) (some 14) true ∈
        (exec okOracle (some 1) none (some "x = 1") (some ⟨1, 5⟩) (some ⟨2, 5⟩) readyWorld).evs :=
  ⟨by decide,
    ((exec_aliases_same_map okOracle 1 none "x = 1" ⟨1, 5⟩ ⟨2, 5⟩ readyWorld (by decide)).1 rfl).1,
    by decide⟩

/-! ## A fragment that raises `SystemExit` -/

/-- In a process in which no interpreter has been initialised, `exec` on a null script ends the
process inside `PyErr_Clear()` (line 184), after the fault has been made pending. -/
theorem exec_null_script_fresh_process_ends :
    (exec okOracle (some 1) none none none none freshWorld).ended = true ∧
      (exec okOracle (some 1) none none none none freshWorld).evs =
        [Ev.findClass true, Ev.throw "java/lang/Error" "Script was null."] := by
  decide

/-- C5 (the code at the failing input). When the fragment raises `SystemExit`, attach has succeeded
and the fragment has been executed, but `throwWrappedError` (line 464) calls `PyErr_Print()`, which
ends the process: the last thing `exec` does is `ReleaseStringUTFChars` at line 459, no fault is
reported to host A and `detach_env` is never entered. -/
theorem exec_system_exit_skips_detach :
    (attach_env exitOracle (some 1) (check_init exitOracle readyWorld).st).val = 0 ∧
      (exec exitOracle (some 1) none (some "raise SystemExit") none none readyWorld).ended = true ∧
      (exec exitOracle (some 1) none (some "raise SystemExit") none none readyWorld).evs =
        [Ev.gilEnsure, Ev.enter Fn.attach_env, Ev.api 226 true, Ev.api 231 true, Ev.api 237 true,
          Ev.api 244 true, Ev.api 252 true, Ev.decref 5, Ev.decref 4, Ev.decref 3, Ev.decref 2,
          Ev.decref 1, Ev.enter (Fn.mapToDictionary none), Ev.api 367 true,
          Ev.enter (Fn.mapToDictionary none), Ev.api 367 true,
          Ev.enter (Fn.add_globals (some 7)), Ev.api 414 true, Ev.api 419 true, Ev.api 420 true,
          Ev.getChars, Ev.run "raise SystemExit" (some 7) (some 6) false, Ev.releaseChars] ∧
      Ev.enter Fn.detach_env ∉
        (exec exitOracle (some 1) none (some "raise SystemExit") none none readyWorld).evs := by
  decide

/-- C8 (the code at the failing input). When the fragment raises `SystemExit`, `exec` acquires the
lock, runs the fragment under it and ends the process inside `PyErr_Print()` (line 197, called from
line 464): the only lock event of the call is the acquisition, `PyGILState_Release` at line 473 is
never reached.  And when `PyTuple_New(0)` fails in `detach_env` (line 291), the release at line 473
comes only after the dereference of the null `pArgs` at line 306. -/
theorem exec_system_exit_keeps_lock :
    (exec exitOracle (some 1) none (some "raise SystemExit") none none readyWorld).ended = true ∧
      (exec exitOracle (some 1) none (some "raise SystemExit") none none readyWorld).evs.filter
          Ev.isLock = [Ev.gilEnsure] ∧
      (exec exitOracle (some 1) none (some "raise SystemExit") none none readyWorld).evs.filter
          Ev.isRun = [Ev.run "raise SystemExit" (some 7) (some 6) false] ∧
      (exec (failAt 291 "MemoryError") (some 1) none (some "x = 1") none none readyWorld).evs.filter
          (fun e => e.isLock || e == Ev.nullDeref 306) =
        [Ev.gilEnsure, Ev.nullDeref 306, Ev.gilRelease] := by
  decide

end Javabridge
